import Mathlib

/-!
Shallow embedding of the vpc-router VPC reconciliation module
(`vpcrouter/vpc/__init__.py`) together with proofs about its
route-convergence behaviour.

External collaborators (the boto connection and the random number
generator) are modelled as oracles supplied as parameters.  The
process-wide `CURRENT_STATE['routes']` dictionary, the sequence of
collaborator calls performed so far, and the position in the random
stream are threaded through an explicit state record `St`.  Python
exceptions are modelled with an explicit error type carried by
`Except`; a raised exception carries the state at the point of the
raise, so side effects performed before the raise survive, exactly as
in Python.  Logging is modelled only where a claim mentions it (the
warning/error records written by the cycle orchestrator).
-/

namespace VpcRouter

/-- A network interface (boto ENI): identifier and private IP address. -/
structure ENI where
  id : String
  private_ip_address : String
deriving DecidableEq

/-- An EC2 instance: identifier and its network interfaces. -/
structure Instance where
  id : String
  interfaces : List ENI
deriving DecidableEq

/-- A route of a route table.  `instance_id = none` models boto's
`route.instance_id is None` (a route not attached to an instance). -/
structure Route where
  destination_cidr_block : String
  instance_id : Option String
  interface_id : Option String
deriving DecidableEq

/-- A VPC route table: identifier and routes. -/
structure RouteTable where
  id : String
  routes : List Route
deriving DecidableEq

/-- A VPC (only the id is consulted by the module). -/
structure Vpc where
  id : String
deriving DecidableEq

/-- A subnet; `vpc_id` is the VPC that owns it (used to state which VPC
a returned subnet belongs to). -/
structure Subnet where
  id : String
  vpc_id : String
deriving DecidableEq

/-- A reservation groups instances, as returned by
`get_all_reservations`. -/
structure Reservation where
  instances : List Instance
deriving DecidableEq

/-- Python exception kinds that arise in this module.  `vpcRouteSet` is
`vpcrouter.errors.VpcRouteSetError`; `botoStandard` covers
`boto.exception.StandardError` and its subclasses (the errors boto API
calls raise, e.g. `EC2ResponseError`); `keyLookup` is Python's
`KeyError` (raised by a failing dict subscript; in Python 2 it is a
subclass of `StandardError` via `LookupError`); `noAuthHandlerFound`
is `boto.exception.NoAuthHandlerFound`. -/
inductive Exc where
  | vpcRouteSet (msg : String)
  | botoStandard (msg : String)
  | keyLookup (key : String)
  | noAuthHandlerFound
deriving DecidableEq

/-- What an `except VpcRouteSetError` clause catches. -/
def isVpcRouteSetError : Exc → Bool
  | .vpcRouteSet _ => true
  | _ => false

/-- Modelled from the spec: what the orchestrator's
`except boto.exception.StandardError` clause catches.  The class
hierarchy of `vpcrouter.errors.VpcRouteSetError` is declared outside
the sources available here; spec §4.5/§7 state that lookup failures
during snapshot construction are logged as a warning by the cycle
entry point and that no error escapes it, so `VpcRouteSetError` is
modelled as caught by this clause.  `KeyError` is a `StandardError`
in Python 2. -/
def caughtByStandardError : Exc → Bool
  | .vpcRouteSet _ => true
  | .botoStandard _ => true
  | .keyLookup _ => true
  | .noAuthHandlerFound => false

/-- Observable actions of a cycle, in program order: the mutation calls
issued to the connection, session management, and the two log records
the orchestrator writes when it swallows an exception. -/
inductive Event where
  | replaceRoute (route_table_id destination_cidr_block instance_id interface_id : String)
  | createRoute (route_table_id destination_cidr_block instance_id interface_id : String)
  | deleteRoute (route_table_id destination_cidr_block : String)
  | connect (region : String)
  | buildSnapshot (vpc_id : Option String)
  | closeConnection
  | logWarning
  | logError
deriving DecidableEq

/-- `CURRENT_STATE['routes']`: dcidr ↦ (address, instance id, interface id). -/
abbrev Cache := List (String × (String × String × String))

/-- The threaded state: the routes cache, the calls performed so far,
and the position in the random stream. -/
structure St where
  routes : Cache
  trace : List Event
  ctr : Nat
deriving DecidableEq

/-- Python dict read (`d.get(k)` / `d[k]`). -/
def dlookup {β : Type} : List (String × β) → String → Option β
  | [], _ => none
  | (k, v) :: rest, key => if k = key then some v else dlookup rest key

/-- Python dict write (`d[k] = v`): replace the entry if the key is
present, append otherwise. -/
def dinsert {β : Type} : List (String × β) → String → β → List (String × β)
  | [], key, val => [(key, val)]
  | (k, v) :: rest, key, val =>
    if k = key then (key, val) :: rest else (k, v) :: dinsert rest key val

/-- Python dict delete (`del d[k]`, guarded by `k in d` at the call site,
so deleting an absent key is a no-op here). -/
def ddelete {β : Type} (d : List (String × β)) (key : String) : List (String × β) :=
  d.filter (fun p => p.1 ≠ key)

/-- The boto VPC connection: describe calls (pure views of what the
provider returns; the `Option String` argument is the value filed
under the "vpc-id" filter key) and mutation calls (`none` = the call
returned normally, `some e` = the call raised `e`). -/
structure Con where
  get_all_zones : List String
  get_all_vpcs : List Vpc
  get_all_subnets : Option String → List Subnet
  get_all_route_tables : Option String → List RouteTable
  get_all_reservations : Option String → List Reservation
  replace_route : String → String → String → String → Option Exc
  create_route : String → String → String → String → Option Exc
  delete_route : String → String → Option Exc

/-- The process environment of one `handle_spec` call. -/
structure Env where
  /-- `boto.vpc.connect_to_region`: raises, returns `None`, or returns
  a connection. -/
  connectRaw : Except Exc (Option Con)
  /-- the stream of values drawn by `random.randint(0, n-1)`: the k-th
  selector invocation of the cycle reads position k (reduced mod n). -/
  rand : Nat → Nat

/-- Python truthiness of an optional string (`if not vpc_id`). -/
def pyTruthyStr : Option String → Bool
  | none => false
  | some s => s ≠ ""

/-- Python `x in l` where `x` may be `None` (`None in l` is `False`
for a list of strings). -/
def optMem (x : Option String) (l : List String) : Bool :=
  match x with
  | none => false
  | some a => a ∈ l

/-- Python truthiness of `route_spec.get(dcidr)` (`if hosts:`):
false for `None` and for the empty list. -/
def hostsTruthy : Option (List String) → Bool
  | none => false
  | some l => l ≠ []

/-- The dict built by `get_vpc_overview` (keys `zones`, `vpc`,
`subnets`, `route_tables`, `instances`, `instance_by_id`). -/
structure VpcInfo where
  zones : List String
  vpc : Vpc
  subnets : List Subnet
  route_tables : List RouteTable
  instances : List Instance
  instance_by_id : List (String × Instance)
deriving DecidableEq

/-- `connect_to_region`: call boto, raise `VpcRouteSetError` when the
returned connection is falsy. -/
def connect_to_region (env : Env) (region_name : String) : Except Exc Con :=
  match env.connectRaw with
  | .error e => .error e
  | .ok none =>
    .error (.vpcRouteSet ("Could not establish connection to region " ++ region_name))
  | .ok (some con) => .ok con

/-- `d['instance_by_id'][i.id] = i` performed over the instance list in
order (later duplicates overwrite). -/
def buildInstanceIndex (instances : List Instance) : List (String × Instance) :=
  instances.foldl (fun d i => dinsert d i.id i) []

/-- `get_vpc_overview`: pick the VPC (first one when no id was given,
search by id otherwise), then run the describe calls with the filter
`{"vpc-id": vpc_id}` built from the ORIGINAL `vpc_id` argument. -/
def get_vpc_overview (con : Con) (vpc_id : Option String) (region_name : String) :
    Except Exc VpcInfo :=
  if con.get_all_vpcs = [] then .error (.vpcRouteSet "Cannot find any VPCs.")
  else
    match
      (if pyTruthyStr vpc_id then con.get_all_vpcs.find? (fun v => some v.id == vpc_id)
       else con.get_all_vpcs.head?) with
    | none =>
      .error (.vpcRouteSet ("Cannot find specified VPC in region " ++ region_name))
    | some vpc =>
      -- `vpc_filter = {"vpc-id": vpc_id}` is built from the ORIGINAL
      -- `vpc_id` argument and passed to all three describe calls.
      .ok { zones := con.get_all_zones, vpc := vpc,
            subnets := con.get_all_subnets vpc_id,
            route_tables := con.get_all_route_tables vpc_id,
            instances := ((con.get_all_reservations vpc_id).map Reservation.instances).flatten,
            instance_by_id := buildInstanceIndex
              (((con.get_all_reservations vpc_id).map Reservation.instances).flatten) }

/-- inner loops of `find_instance_and_emi_by_ip`: first instance with
an interface whose private address equals `ip`; raises
`VpcRouteSetError` when none exists. -/
def find_instance_loop (ip : String) : List Instance → Except Exc (Instance × ENI)
  | [] => .error (.vpcRouteSet ("Could not find instance/emi for " ++ ip))
  | inst :: rest =>
    match inst.interfaces.find? (fun eni => eni.private_ip_address == ip) with
    | some eni => .ok (inst, eni)
    | none => find_instance_loop ip rest

/-- `find_instance_and_emi_by_ip`. -/
def find_instance_and_emi_by_ip (vpc_info : VpcInfo) (ip : String) :
    Except Exc (Instance × ENI) :=
  find_instance_loop ip vpc_info.instances

/-- `get_instance_private_ip_from_route`: the interface of `instance`
matching the route's `interface_id`; the returned eni component is
`None` when the found address is falsy (`eni if ipaddr else None`). -/
def get_instance_private_ip_from_route (inst : Instance) (route : Route) :
    Option String × Option ENI :=
  match inst.interfaces.find? (fun eni => some eni.id == route.interface_id) with
  | some eni =>
    (some eni.private_ip_address,
     if eni.private_ip_address ≠ "" then some eni else none)
  | none => (none, none)

/-- The while loop of `_choose_from_hosts`: probe index `i`, advance
with wraparound, stop after `fuel` probes (the caller passes the list
length, which makes the loop stop exactly when it would return to the
starting index). -/
def chooseLoop (ip_list failed_ips : List String) : Nat → Nat → Option String
  | _, 0 => none
  | i, fuel + 1 =>
    match ip_list[i]? with
    | none => none
    | some ip =>
      if ip ∈ failed_ips then
        chooseLoop ip_list failed_ips
          (if i + 1 = ip_list.length then 0 else i + 1) fuel
      else some ip

/-- `_choose_from_hosts`, with the value drawn by `random.randint`
passed in as `first_choice`. -/
def choose_from_hosts (ip_list failed_ips : List String) (first_choice : Nat) :
    Option String :=
  if ip_list = [] then none
  else chooseLoop ip_list failed_ips first_choice ip_list.length

/-- A `_choose_from_hosts` call site: when the list is non-empty it
consumes one position of the random stream for `random.randint`. -/
def chooseM (rand : Nat → Nat) (ip_list failed_ips : List String) (st : St) :
    Option String × St :=
  if ip_list = [] then (none, st)
  else (choose_from_hosts ip_list failed_ips (rand st.ctr % ip_list.length),
        { st with ctr := st.ctr + 1 })

/-- `_check_or_update_route`.  The keep branch only logs; otherwise a
new address is selected and, inside `try .. except VpcRouteSetError`,
resolved and written through `replace_route`, the cache being updated
after the call returns.  An exception that is not a
`VpcRouteSetError` propagates with the state as of the raise. -/
def check_or_update_route (con : Con) (rand : Nat → Nat) (dcidr : String)
    (_current_instance : Instance) (_current_eni : Option ENI)
    (current_ipaddr : Option String) (hosts failed_ips : List String)
    (rt_id : String) (vpc_info : VpcInfo) (st : St) :
    Except (Exc × St) St :=
  if optMem current_ipaddr hosts && !optMem current_ipaddr failed_ips then
    .ok st
  else
    match chooseM rand hosts failed_ips st with
    | (none, st1) => .ok st1
    | (some new_addr, st1) =>
      match find_instance_and_emi_by_ip vpc_info new_addr with
      | .error e => if isVpcRouteSetError e then .ok st1 else .error (e, st1)
      | .ok (new_instance, new_eni) =>
        match con.replace_route rt_id dcidr new_instance.id new_eni.id with
        | some e =>
          if isVpcRouteSetError e then
            .ok { st1 with
              trace := st1.trace ++ [.replaceRoute rt_id dcidr new_instance.id new_eni.id] }
          else
            .error (e, { st1 with
              trace := st1.trace ++ [.replaceRoute rt_id dcidr new_instance.id new_eni.id] })
        | none =>
          .ok { st1 with
            trace := st1.trace ++ [.replaceRoute rt_id dcidr new_instance.id new_eni.id],
            routes := dinsert st1.routes dcidr (new_addr, new_instance.id, new_eni.id) }

/-- `_add_new_route`: inside `try .. except VpcRouteSetError`, select
an address, resolve it, call `create_route`, update the cache after
the call returns. -/
def add_new_route (con : Con) (rand : Nat → Nat) (hosts failed_ips : List String)
    (vpc_info : VpcInfo) (route_table_id dcidr : String) (st : St) :
    Except (Exc × St) St :=
  match chooseM rand hosts failed_ips st with
  | (none, st1) => .ok st1
  | (some new_addr, st1) =>
    match find_instance_and_emi_by_ip vpc_info new_addr with
    | .error e => if isVpcRouteSetError e then .ok st1 else .error (e, st1)
    | .ok (inst, eni) =>
      match con.create_route route_table_id dcidr inst.id eni.id with
      | some e =>
        if isVpcRouteSetError e then
          .ok { st1 with
            trace := st1.trace ++ [.createRoute route_table_id dcidr inst.id eni.id] }
        else
          .error (e, { st1 with
            trace := st1.trace ++ [.createRoute route_table_id dcidr inst.id eni.id] })
      | none =>
        .ok { st1 with
          trace := st1.trace ++ [.createRoute route_table_id dcidr inst.id eni.id],
          routes := dinsert st1.routes dcidr (new_addr, inst.id, eni.id) }

/-- The body of the inner loop of pass 1 of
`process_route_spec_config`, for one route `r` of the table `rt_id`
(the `routes_in_rts` bookkeeping lives in the loop, not here).  Note
that the `instance_by_id` dict subscript is NOT inside any `try`: a
missing id raises `KeyError`, which propagates. -/
def processRoute (con : Con) (rand : Nat → Nat) (vpc_info : VpcInfo)
    (route_spec : List (String × List String)) (failed_ips : List String)
    (rt_id : String) (r : Route) (st : St) : Except (Exc × St) St :=
  match r.instance_id with
  | none => .ok st
  | some iid =>
    match dlookup vpc_info.instance_by_id iid with
    | none => .error (.keyLookup iid, st)
    | some inst =>
      if hostsTruthy (dlookup route_spec r.destination_cidr_block) then
        check_or_update_route con rand r.destination_cidr_block inst
          (get_instance_private_ip_from_route inst r).2
          (get_instance_private_ip_from_route inst r).1
          ((dlookup route_spec r.destination_cidr_block).getD []) failed_ips
          rt_id vpc_info st
      else
        match con.delete_route rt_id r.destination_cidr_block with
        | some e =>
          .error (e, { st with
            trace := st.trace ++ [.deleteRoute rt_id r.destination_cidr_block] })
        | none =>
          .ok { st with
            trace := st.trace ++ [.deleteRoute rt_id r.destination_cidr_block],
            routes := ddelete st.routes r.destination_cidr_block }

/-- The inner `for r in rt.routes` loop of pass 1: record the prefix as
seen (before the foreign-route check, as in the source), then process
the route. -/
def routesLoop (con : Con) (rand : Nat → Nat) (vpc_info : VpcInfo)
    (route_spec : List (String × List String)) (failed_ips : List String)
    (rt_id : String) : List Route → List String → St →
    Except (Exc × St) (List String × St)
  | [], seen, st => .ok (seen, st)
  | r :: rest, seen, st =>
    match processRoute con rand vpc_info route_spec failed_ips rt_id r st with
    | .error es => .error es
    | .ok st1 =>
      routesLoop con rand vpc_info route_spec failed_ips rt_id rest
        (seen ++ [r.destination_cidr_block]) st1

/-- Pass 1 (`for rt in vpc_info['route_tables']`), accumulating
`routes_in_rts`. -/
def pass1 (con : Con) (rand : Nat → Nat) (vpc_info : VpcInfo)
    (route_spec : List (String × List String)) (failed_ips : List String) :
    List RouteTable → List (String × List String) → St →
    Except (Exc × St) (List (String × List String) × St)
  | [], acc, st => .ok (acc, st)
  | rt :: rest, acc, st =>
    match routesLoop con rand vpc_info route_spec failed_ips rt.id rt.routes [] st with
    | .error es => .error es
    | .ok (seen, st1) =>
      pass1 con rand vpc_info route_spec failed_ips rest (dinsert acc rt.id seen) st1

/-- The inner loop of pass 2 (`for rt_id, dcidr_list in
routes_in_rts.items()`), for one spec entry `(dcidr, hosts)`. -/
def seenLoop (con : Con) (rand : Nat → Nat) (vpc_info : VpcInfo)
    (failed_ips : List String) (dcidr : String) (hosts : List String) :
    List (String × List String) → St → Except (Exc × St) St
  | [], st => .ok st
  | (rt_id, dcidr_list) :: rest, st =>
    if dcidr ∈ dcidr_list then
      seenLoop con rand vpc_info failed_ips dcidr hosts rest st
    else
      match add_new_route con rand hosts failed_ips vpc_info rt_id dcidr st with
      | .error es => .error es
      | .ok st1 => seenLoop con rand vpc_info failed_ips dcidr hosts rest st1

/-- Pass 2 (`for dcidr, hosts in route_spec.items()`). -/
def pass2 (con : Con) (rand : Nat → Nat) (vpc_info : VpcInfo)
    (failed_ips : List String) :
    List (String × List String) → List (String × List String) → St →
    Except (Exc × St) St
  | [], _, st => .ok st
  | (dcidr, hosts) :: rest, routes_in_rts, st =>
    match seenLoop con rand vpc_info failed_ips dcidr hosts routes_in_rts st with
    | .error es => .error es
    | .ok st1 => pass2 con rand vpc_info failed_ips rest routes_in_rts st1

/-- `process_route_spec_config`: pass 1 over all tables, then pass 2
over the spec. -/
def process_route_spec_config (con : Con) (rand : Nat → Nat) (vpc_info : VpcInfo)
    (route_spec : List (String × List String)) (failed_ips : List String)
    (st : St) : Except (Exc × St) St :=
  match pass1 con rand vpc_info route_spec failed_ips vpc_info.route_tables [] st with
  | .error es => .error es
  | .ok (routes_in_rts, st1) =>
    pass2 con rand vpc_info failed_ips route_spec routes_in_rts st1

/-- `handle_spec`: early return on an empty spec; otherwise connect,
build the snapshot, reconcile, close — all inside
`try .. except boto.exception.StandardError .. except
NoAuthHandlerFound`. -/
def handle_spec (env : Env) (region_name : String) (vpc_id : Option String)
    (route_spec : List (String × List String)) (failed_ips : List String)
    (cache : Cache) : Except (Exc × St) St :=
  if route_spec = [] then .ok { routes := cache, trace := [], ctr := 0 }
  else
    match
      (match connect_to_region env region_name with
      | .error e => .error (e, { routes := cache, trace := [.connect region_name], ctr := 0 })
      | .ok con =>
        match get_vpc_overview con vpc_id region_name with
        | .error e =>
          .error (e, { routes := cache,
                       trace := [.connect region_name, .buildSnapshot vpc_id], ctr := 0 })
        | .ok vpc_info =>
          match process_route_spec_config con env.rand vpc_info route_spec failed_ips
              { routes := cache,
                trace := [.connect region_name, .buildSnapshot vpc_id], ctr := 0 } with
          | .error es => .error es
          | .ok st3 => .ok { st3 with trace := st3.trace ++ [.closeConnection] }
      : Except (Exc × St) St)
    with
    | .ok st => .ok st
    | .error (e, st) =>
      if caughtByStandardError e then
        .ok { st with trace := st.trace ++ [.logWarning] }
      else if e = .noAuthHandlerFound then
        .ok { st with trace := st.trace ++ [.logError] }
      else
        .error (e, st)

/-- Modelled from the spec: the effect of the mutation provider's
create/replace/delete calls on a route table (spec §6), used to state
what a table holds after a cycle.  `createRoute` appends an
instance-attached route, `replaceRoute` retargets the routes with the
given prefix, `deleteRoute` removes them. -/
def applyEvent (rt : RouteTable) (ev : Event) : RouteTable :=
  match ev with
  | .createRoute rtid d i e =>
    if rtid = rt.id then
      { rt with routes := rt.routes ++
          [{ destination_cidr_block := d, instance_id := some i, interface_id := some e }] }
    else rt
  | .replaceRoute rtid d i e =>
    if rtid = rt.id then
      { rt with routes := rt.routes.map (fun r =>
          if r.destination_cidr_block = d then
            { r with instance_id := some i, interface_id := some e }
          else r) }
    else rt
  | .deleteRoute rtid d =>
    if rtid = rt.id then
      { rt with routes := rt.routes.filter (fun r => r.destination_cidr_block ≠ d) }
    else rt
  | _ => rt

/-- The table obtained after a trace of calls. -/
def applyTrace (rt : RouteTable) (trace : List Event) : RouteTable :=
  trace.foldl applyEvent rt

/-- Number of instance-attached routes of `rt` for prefix `p`. -/
def countInstanceAttached (rt : RouteTable) (p : String) : Nat :=
  (rt.routes.filter (fun r => r.destination_cidr_block = p && r.instance_id.isSome)).length

/-- The state a computation left behind, whether it returned or raised. -/
def resSt : Except (Exc × St) St → St
  | .ok st => st
  | .error (_, st) => st

/-- Same, for the pass-1 route loop. -/
def resStSeen : Except (Exc × St) (List String × St) → St
  | .ok (_, st) => st
  | .error (_, st) => st

/-- Same, for pass 1. -/
def resStAcc : Except (Exc × St) (List (String × List String) × St) → St
  | .ok (_, st) => st
  | .error (_, st) => st

/-- Did the computation return normally? -/
def isOkE {ε α : Type} : Except ε α → Bool
  | .ok _ => true
  | .error _ => false

/-- The (table id, prefix) a mutation call addresses. -/
def evKey : Event → Option (String × String)
  | .replaceRoute a b _ _ => some (a, b)
  | .createRoute a b _ _ => some (a, b)
  | .deleteRoute a b => some (a, b)
  | _ => none

/-- Is `ev` a `create_route` call for table `rid`, prefix `d`? -/
def isCreateFor (rid d : String) : Event → Bool
  | .createRoute a b _ _ => a == rid && b == d
  | _ => false

/-- Is `ev` any mutation call (create, replace or delete)? -/
def isMutation : Event → Bool
  | .replaceRoute _ _ _ _ => true
  | .createRoute _ _ _ _ => true
  | .deleteRoute _ _ => true
  | _ => false

/-! ### Lemmas about the failover selector -/

/-- Anything the probe loop returns is a non-failed member of the list. -/
lemma chooseLoop_mem {ip_list failed_ips : List String} :
    ∀ (fuel i : Nat) (a : String),
      chooseLoop ip_list failed_ips i fuel = some a → a ∈ ip_list ∧ a ∉ failed_ips := by
  intro fuel
  induction fuel with
  | zero => intro i a h; simp [chooseLoop] at h
  | succ n ih =>
    intro i a h
    rw [chooseLoop] at h
    cases hg : ip_list[i]? with
    | none => simp only [hg] at h; cases h
    | some ip =>
      simp only [hg] at h
      by_cases hf : ip ∈ failed_ips
      · rw [if_pos hf] at h
        exact ih _ _ h
      · rw [if_neg hf] at h
        obtain rfl : ip = a := by injection h
        obtain ⟨hlt, he⟩ := List.getElem?_eq_some.mp hg
        exact ⟨he ▸ List.getElem_mem hlt, hf⟩

/-- If every list member is failed, the probe loop finds nothing. -/
lemma chooseLoop_allFailed {ip_list failed_ips : List String}
    (hall : ∀ ip ∈ ip_list, ip ∈ failed_ips) :
    ∀ (fuel i : Nat), chooseLoop ip_list failed_ips i fuel = none := by
  intro fuel
  induction fuel with
  | zero => intro i; rfl
  | succ n ih =>
    intro i
    rw [chooseLoop]
    cases hg : ip_list[i]? with
    | none => simp only [hg]
    | some ip =>
      have hmem : ip ∈ ip_list := by
        obtain ⟨hlt, he⟩ := List.getElem?_eq_some.mp hg
        exact he ▸ List.getElem_mem hlt
      simp only [hg]
      rw [if_pos (hall ip hmem)]
      exact ih _

/-- Cyclic forward distance from `i` to `j` in a list of length `n`. -/
def cdist (n i j : Nat) : Nat := if i ≤ j then j - i else j + n - i

/-- Starting within range, with enough fuel to walk forward (with
wraparound) to a healthy index, the probe loop returns something. -/
lemma chooseLoop_reaches {ip_list failed_ips : List String}
    (j : Nat) (hj : j < ip_list.length)
    (hHealthy : ip_list[j] ∉ failed_ips) :
    ∀ (fuel i : Nat), i < ip_list.length →
      cdist ip_list.length i j < fuel →
      (chooseLoop ip_list failed_ips i fuel).isSome = true := by
  intro fuel
  induction fuel with
  | zero => intro i _ hd; omega
  | succ n ih =>
    intro i hi hd
    rw [chooseLoop]
    have hg : ip_list[i]? = some ip_list[i] := List.getElem?_eq_getElem hi
    simp only [hg]
    by_cases hf : ip_list[i] ∈ failed_ips
    · rw [if_pos hf]
      have hij : i ≠ j := by
        intro he; subst he; exact hHealthy hf
      have hd1 : 0 < cdist ip_list.length i j := by
        unfold cdist; split <;> omega
      set i' := if i + 1 = ip_list.length then 0 else i + 1 with hi'
      have hi'lt : i' < ip_list.length := by
        rw [hi']; split <;> omega
      have hstep : cdist ip_list.length i' j = cdist ip_list.length i j - 1 := by
        rw [hi']; unfold cdist; split <;> split <;> split <;> omega
      exact ih i' hi'lt (by omega)
    · rw [if_neg hf]; rfl

/-- `_choose_from_hosts` returns `None` exactly when the list is empty
or every member is failed (given an in-range first choice). -/
lemma choose_none_iff {ip_list failed_ips : List String} {first_choice : Nat}
    (hfc : ip_list = [] ∨ first_choice < ip_list.length) :
    choose_from_hosts ip_list failed_ips first_choice = none ↔
      ip_list = [] ∨ ∀ ip ∈ ip_list, ip ∈ failed_ips := by
  unfold choose_from_hosts
  by_cases he : ip_list = []
  · simp [he]
  · rw [if_neg he]
    constructor
    · intro hnone
      right
      by_contra hnot
      push_neg at hnot
      obtain ⟨ip, hipmem, hipok⟩ := hnot
      obtain ⟨j, hj, hje⟩ := List.mem_iff_getElem.mp hipmem
      have hfc' : first_choice < ip_list.length := hfc.resolve_left he
      have hreach := chooseLoop_reaches j hj (hje ▸ hipok) ip_list.length first_choice
        hfc' (by unfold cdist; split <;> omega)
      rw [hnone] at hreach
      simp at hreach
    · intro hall
      exact chooseLoop_allFailed (hall.resolve_left he) _ _

/-- Whatever `_choose_from_hosts` returns is a non-failed candidate. -/
lemma choose_some_spec {ip_list failed_ips : List String} {first_choice : Nat}
    {a : String} (h : choose_from_hosts ip_list failed_ips first_choice = some a) :
    a ∈ ip_list ∧ a ∉ failed_ips := by
  unfold choose_from_hosts at h
  by_cases he : ip_list = []
  · rw [if_pos he] at h; cases h
  · rw [if_neg he] at h
    exact chooseLoop_mem _ _ _ h

/-- With a non-failed candidate present, `_choose_from_hosts` returns
some non-failed candidate of the list. -/
lemma choose_some_of_healthy {ip_list failed_ips : List String} {first_choice : Nat}
    (hne : ip_list ≠ []) (hfc : first_choice < ip_list.length)
    (hhealthy : ∃ a ∈ ip_list, a ∉ failed_ips) :
    ∃ a, choose_from_hosts ip_list failed_ips first_choice = some a ∧
      a ∈ ip_list ∧ a ∉ failed_ips := by
  cases hres : choose_from_hosts ip_list failed_ips first_choice with
  | none =>
    rcases (choose_none_iff (Or.inr hfc)).mp hres with h | hall
    · exact absurd h hne
    · obtain ⟨a, ha, hn⟩ := hhealthy
      exact absurd (hall a ha) hn
  | some a =>
    exact ⟨a, rfl, choose_some_spec hres⟩

/-- `chooseM` only advances the random counter: cache and trace pass
through. -/
lemma chooseM_fields (rand : Nat → Nat) (l f : List String) (st : St) :
    ∀ (aO : Option String) (st1 : St), chooseM rand l f st = (aO, st1) →
      st1.routes = st.routes ∧ st1.trace = st.trace := by
  intro aO st1 h
  unfold chooseM at h
  split at h <;> (injection h with h1 h2; rw [← h2]; exact ⟨rfl, rfl⟩)

/-- A trivial connection on which every mutation call succeeds. -/
def conAllOk : Con where
  get_all_zones := []
  get_all_vpcs := []
  get_all_subnets := fun _ => []
  get_all_route_tables := fun _ => []
  get_all_reservations := fun _ => []
  replace_route := fun _ _ _ _ => none
  create_route := fun _ _ _ _ => none
  delete_route := fun _ _ => none

/-- An empty snapshot. -/
def vpcInfoEmpty : VpcInfo where
  zones := []
  vpc := { id := "vpc-1" }
  subnets := []
  route_tables := []
  instances := []
  instance_by_id := []

/-- C1: for every candidate list and failed set (and in-range random
first choice), `_choose_from_hosts` returns `None` iff the list is
empty or every candidate is failed; otherwise it returns an element of
the candidate list that is not failed; and when the selector returns
`None`, `_check_or_update_route` returns without any mutation call and
without touching the cache. -/
theorem c1_selector_none_iff_exhausted :
    (∀ (ip_list failed_ips : List String) (first_choice : Nat),
      ip_list = [] ∨ first_choice < ip_list.length →
      (choose_from_hosts ip_list failed_ips first_choice = none ↔
        ip_list = [] ∨ ∀ ip ∈ ip_list, ip ∈ failed_ips)) ∧
    (∀ (ip_list failed_ips : List String) (first_choice : Nat) (a : String),
      choose_from_hosts ip_list failed_ips first_choice = some a →
      a ∈ ip_list ∧ a ∉ failed_ips) ∧
    (∀ (con : Con) (rand : Nat → Nat) (dcidr : String) (ci : Instance)
      (ce : Option ENI) (ipa : Option String) (hosts failed_ips : List String)
      (rt_id : String) (vpc_info : VpcInfo) (st st1 : St),
      chooseM rand hosts failed_ips st = (none, st1) →
      (optMem ipa hosts && !optMem ipa failed_ips) = false →
      check_or_update_route con rand dcidr ci ce ipa hosts failed_ips rt_id vpc_info st
          = .ok st1 ∧ st1.routes = st.routes ∧ st1.trace = st.trace) := by
  refine ⟨fun l f fc h => choose_none_iff h, fun l f fc a h => choose_some_spec h, ?_⟩
  intro con rand dcidr ci ce ipa hosts failed_ips rt_id vpc_info st st1 hch hcond
  have hfields := chooseM_fields rand hosts failed_ips st none st1 hch
  unfold check_or_update_route
  simp only [hcond, hch]
  exact ⟨rfl, hfields.1, hfields.2⟩

/-- Concrete instantiation of `c1_selector_none_iff_exhausted`: both
candidates failed, so the selector is exhausted, and the caller leaves
the state untouched. -/
theorem c1_selector_witness :
    ((choose_from_hosts ["10.0.0.5", "10.0.0.6"] ["10.0.0.5", "10.0.0.6"] 1 = none ↔
      (["10.0.0.5", "10.0.0.6"] : List String) = [] ∨
        ∀ ip ∈ (["10.0.0.5", "10.0.0.6"] : List String),
          ip ∈ (["10.0.0.5", "10.0.0.6"] : List String))) ∧
    (check_or_update_route conAllOk (fun _ => 1) "10.0.1.0/24"
        { id := "i-1", interfaces := [] } none (some "10.0.0.5")
        ["10.0.0.5", "10.0.0.6"] ["10.0.0.5", "10.0.0.6"] "rt-1" vpcInfoEmpty
        { routes := [], trace := [], ctr := 0 }
      = .ok { routes := [], trace := [], ctr := 1 } ∧
      ([] : Cache) = [] ∧ ([] : List Event) = []) := by
  constructor
  · exact c1_selector_none_iff_exhausted.1 _ _ 1 (Or.inr (by decide))
  · exact c1_selector_none_iff_exhausted.2.2 conAllOk (fun _ => 1) "10.0.1.0/24"
      { id := "i-1", interfaces := [] } none (some "10.0.0.5")
      ["10.0.0.5", "10.0.0.6"] ["10.0.0.5", "10.0.0.6"] "rt-1" vpcInfoEmpty
      { routes := [], trace := [], ctr := 0 } { routes := [], trace := [], ctr := 1 }
      (by decide) (by decide)

/-! ### Dictionary lemmas -/

lemma dlookup_mem {β : Type} {d : List (String × β)} {k : String} {v : β}
    (h : dlookup d k = some v) : (k, v) ∈ d := by
  induction d with
  | nil => cases h
  | cons p rest ih =>
    obtain ⟨k', v'⟩ := p
    rw [dlookup] at h
    split at h
    · rename_i he
      injection h with h
      subst he
      subst h
      exact List.mem_cons_self _ _
    · exact List.mem_cons_of_mem _ (ih h)

lemma dinsert_of_fresh {β : Type} {d : List (String × β)} {k : String} (v : β)
    (h : k ∉ d.map Prod.fst) : dinsert d k v = d ++ [(k, v)] := by
  induction d with
  | nil => rfl
  | cons p rest ih =>
    obtain ⟨k', v'⟩ := p
    simp only [List.map_cons, List.mem_cons] at h
    push_neg at h
    rw [dinsert, if_neg (by simpa using Ne.symm h.1)]
    simp [ih h.2]

lemma mem_unique_of_nodup_keys {β : Type} {d : List (String × β)}
    (hn : (d.map Prod.fst).Nodup) {k : String} {v1 v2 : β}
    (h1 : (k, v1) ∈ d) (h2 : (k, v2) ∈ d) : v1 = v2 := by
  induction d with
  | nil => cases h1
  | cons p rest ih =>
    obtain ⟨k', v'⟩ := p
    simp only [List.map_cons, List.nodup_cons] at hn
    rcases List.mem_cons.mp h1 with he1 | ht1 <;>
      rcases List.mem_cons.mp h2 with he2 | ht2
    · rw [Prod.mk.injEq] at he1 he2
      rw [he1.2, he2.2]
    · exfalso
      rw [Prod.mk.injEq] at he1
      exact hn.1 (he1.1 ▸ List.mem_map_of_mem Prod.fst ht2)
    · exfalso
      rw [Prod.mk.injEq] at he2
      exact hn.1 (he2.1 ▸ List.mem_map_of_mem Prod.fst ht1)
    · exact ih hn.2 ht1 ht2

/-! ### Shape lemmas for the per-decision functions -/

/-- The instance search loop only ever raises `VpcRouteSetError`. -/
lemma find_loop_err_kind {ip : String} {e : Exc} :
    ∀ l : List Instance, find_instance_loop ip l = .error e →
      isVpcRouteSetError e = true := by
  intro l
  induction l with
  | nil => intro h; injection h with h; rw [← h]; rfl
  | cons inst rest ih =>
    intro h
    rw [find_instance_loop] at h
    split at h
    · cases h
    · exact ih h

/-- `find_instance_and_emi_by_ip` only ever raises `VpcRouteSetError`. -/
lemma find_err_kind {vpc_info : VpcInfo} {ip : String} {e : Exc}
    (h : find_instance_and_emi_by_ip vpc_info ip = .error e) :
    isVpcRouteSetError e = true :=
  find_loop_err_kind _ h

/-- Every event `_check_or_update_route` appends is a `replace_route`
call for its own table and prefix, and the state left behind (on
return or on raise) extends the incoming trace. -/
lemma check_trace (con : Con) (rand : Nat → Nat) (dcidr : String) (ci : Instance)
    (ce : Option ENI) (ipa : Option String) (hosts failed_ips : List String)
    (rt_id : String) (vpc_info : VpcInfo) (st : St) :
    ∃ l, (resSt (check_or_update_route con rand dcidr ci ce ipa hosts failed_ips
        rt_id vpc_info st)).trace = st.trace ++ l ∧
      ∀ ev ∈ l, ∃ i e, ev = Event.replaceRoute rt_id dcidr i e := by
  unfold check_or_update_route
  split
  · exact ⟨[], by simp [resSt], by simp⟩
  · split
    · rename_i st1 heq
      have hf := chooseM_fields rand hosts failed_ips st none st1 heq
      exact ⟨[], by simp [resSt, hf.2], by simp⟩
    · rename_i a st1 heq
      have hf := chooseM_fields rand hosts failed_ips st (some a) st1 heq
      split
      · split
        · exact ⟨[], by simp [resSt, hf.2], by simp⟩
        · exact ⟨[], by simp [resSt, hf.2], by simp⟩
      · rename_i ni ne hfind
        split
        · split
          · refine ⟨[Event.replaceRoute rt_id dcidr ni.id ne.id], by simp [resSt, hf.2], ?_⟩
            intro ev hev
            rw [List.mem_singleton] at hev
            exact ⟨ni.id, ne.id, hev⟩
          · refine ⟨[Event.replaceRoute rt_id dcidr ni.id ne.id], by simp [resSt, hf.2], ?_⟩
            intro ev hev
            rw [List.mem_singleton] at hev
            exact ⟨ni.id, ne.id, hev⟩
        · refine ⟨[Event.replaceRoute rt_id dcidr ni.id ne.id], by simp [resSt, hf.2], ?_⟩
          intro ev hev
          rw [List.mem_singleton] at hev
          exact ⟨ni.id, ne.id, hev⟩

/-- The cache write of `_check_or_update_route` happens only after a
successful `replace_route` call; every other path, raising paths
included, leaves the cache exactly as it was. -/
lemma check_routes (con : Con) (rand : Nat → Nat) (dcidr : String) (ci : Instance)
    (ce : Option ENI) (ipa : Option String) (hosts failed_ips : List String)
    (rt_id : String) (vpc_info : VpcInfo) (st : St) :
    (∀ st', check_or_update_route con rand dcidr ci ce ipa hosts failed_ips
        rt_id vpc_info st = .ok st' →
      st'.routes = st.routes ∨
        ∃ a i e, con.replace_route rt_id dcidr i e = none ∧
          st'.routes = dinsert st.routes dcidr (a, i, e)) ∧
    (∀ e' st', check_or_update_route con rand dcidr ci ce ipa hosts failed_ips
        rt_id vpc_info st = .error (e', st') → st'.routes = st.routes) := by
  unfold check_or_update_route
  split
  · exact ⟨fun st' h => by injection h with h; rw [← h]; left; rfl, fun e' st' h => by cases h⟩
  · split
    · rename_i st1 heq
      have hf := chooseM_fields rand hosts failed_ips st none st1 heq
      exact ⟨fun st' h => by injection h with h; rw [← h]; left; exact hf.1,
             fun e' st' h => by cases h⟩
    · rename_i a st1 heq
      have hf := chooseM_fields rand hosts failed_ips st (some a) st1 heq
      split
      · split
        · exact ⟨fun st' h => by injection h with h; rw [← h]; left; exact hf.1,
               fun e' st' h => by cases h⟩
        · refine ⟨fun st' h => (nomatch h), fun e' st' h => ?_⟩
          injection h with h
          rw [Prod.mk.injEq] at h
          rw [← h.2]
          exact hf.1
      · rename_i ni ne hfind
        split
        · rename_i e hrep
          split
          · exact ⟨fun st' h => by injection h with h; rw [← h]; left; exact hf.1,
                 fun e' st' h => by cases h⟩
          · refine ⟨fun st' h => (nomatch h), fun e' st' h => ?_⟩
            injection h with h
            rw [Prod.mk.injEq] at h
            rw [← h.2]
            exact hf.1
        · rename_i hrep
          refine ⟨fun st' h => ?_, fun e' st' h => by cases h⟩
          injection h with h
          right
          exact ⟨a, ni.id, ne.id, hrep, by rw [← h]; simp [hf.1]⟩

lemma isOkE_exists {ε α : Type} {x : Except ε α} (h : isOkE x = true) :
    ∃ v, x = .ok v := by
  cases x with
  | ok v => exact ⟨v, rfl⟩
  | error e => cases h

/-- When `replace_route` never fails for this table,
`_check_or_update_route` always returns normally (the only other
raising candidate, a failed address lookup, raises `VpcRouteSetError`,
which its own handler catches). -/
lemma check_ok (con : Con) (rand : Nat → Nat) (dcidr : String) (ci : Instance)
    (ce : Option ENI) (ipa : Option String) (hosts failed_ips : List String)
    (rt_id : String) (vpc_info : VpcInfo) (st : St)
    (hrepl : ∀ b c d, con.replace_route rt_id b c d = none) :
    isOkE (check_or_update_route con rand dcidr ci ce ipa hosts failed_ips
        rt_id vpc_info st) = true := by
  unfold check_or_update_route
  split
  · rfl
  · split
    · rfl
    · rename_i a st1 heq
      split
      · rename_i e hfind
        rw [if_pos (find_err_kind hfind)]
        rfl
      · rename_i ni ne hfind
        split
        · rename_i e hrep
          rw [hrepl] at hrep
          cases hrep
        · rfl

/-- Every event `_add_new_route` appends is a `create_route` call for
its own table and prefix. -/
lemma add_trace (con : Con) (rand : Nat → Nat) (hosts failed_ips : List String)
    (vpc_info : VpcInfo) (rt_id dcidr : String) (st : St) :
    ∃ l, (resSt (add_new_route con rand hosts failed_ips vpc_info rt_id dcidr st)).trace
        = st.trace ++ l ∧
      ∀ ev ∈ l, ∃ i e, ev = Event.createRoute rt_id dcidr i e := by
  unfold add_new_route
  split
  · rename_i st1 heq
    have hf := chooseM_fields rand hosts failed_ips st none st1 heq
    exact ⟨[], by simp [resSt, hf.2], by simp⟩
  · rename_i a st1 heq
    have hf := chooseM_fields rand hosts failed_ips st (some a) st1 heq
    split
    · split
      · exact ⟨[], by simp [resSt, hf.2], by simp⟩
      · exact ⟨[], by simp [resSt, hf.2], by simp⟩
    · rename_i ni ne hfind
      split
      · split
        · refine ⟨[Event.createRoute rt_id dcidr ni.id ne.id], by simp [resSt, hf.2], ?_⟩
          intro ev hev
          rw [List.mem_singleton] at hev
          exact ⟨ni.id, ne.id, hev⟩
        · refine ⟨[Event.createRoute rt_id dcidr ni.id ne.id], by simp [resSt, hf.2], ?_⟩
          intro ev hev
          rw [List.mem_singleton] at hev
          exact ⟨ni.id, ne.id, hev⟩
      · refine ⟨[Event.createRoute rt_id dcidr ni.id ne.id], by simp [resSt, hf.2], ?_⟩
        intro ev hev
        rw [List.mem_singleton] at hev
        exact ⟨ni.id, ne.id, hev⟩

/-- The cache write of `_add_new_route` happens only after a successful
`create_route` call; every other path leaves the cache untouched. -/
lemma add_routes (con : Con) (rand : Nat → Nat) (hosts failed_ips : List String)
    (vpc_info : VpcInfo) (rt_id dcidr : String) (st : St) :
    (∀ st', add_new_route con rand hosts failed_ips vpc_info rt_id dcidr st = .ok st' →
      st'.routes = st.routes ∨
        ∃ a i e, con.create_route rt_id dcidr i e = none ∧
          st'.routes = dinsert st.routes dcidr (a, i, e)) ∧
    (∀ e' st', add_new_route con rand hosts failed_ips vpc_info rt_id dcidr st
        = .error (e', st') → st'.routes = st.routes) := by
  unfold add_new_route
  split
  · rename_i st1 heq
    have hf := chooseM_fields rand hosts failed_ips st none st1 heq
    exact ⟨fun st' h => by injection h with h; rw [← h]; left; exact hf.1,
           fun e' st' h => by cases h⟩
  · rename_i a st1 heq
    have hf := chooseM_fields rand hosts failed_ips st (some a) st1 heq
    split
    · split
      · exact ⟨fun st' h => by injection h with h; rw [← h]; left; exact hf.1,
             fun e' st' h => by cases h⟩
      · refine ⟨fun st' h => (nomatch h), fun e' st' h => ?_⟩
        injection h with h
        rw [Prod.mk.injEq] at h
        rw [← h.2]
        exact hf.1
    · rename_i ni ne hfind
      split
      · rename_i e hrep
        split
        · exact ⟨fun st' h => by injection h with h; rw [← h]; left; exact hf.1,
               fun e' st' h => by cases h⟩
        · refine ⟨fun st' h => (nomatch h), fun e' st' h => ?_⟩
          injection h with h
          rw [Prod.mk.injEq] at h
          rw [← h.2]
          exact hf.1
      · rename_i hrep
        refine ⟨fun st' h => ?_, fun e' st' h => by cases h⟩
        injection h with h
        right
        exact ⟨a, ni.id, ne.id, hrep, by rw [← h]; simp [hf.1]⟩

/-- When `create_route` never fails for this table, `_add_new_route`
always returns normally. -/
lemma add_ok (con : Con) (rand : Nat → Nat) (hosts failed_ips : List String)
    (vpc_info : VpcInfo) (rt_id dcidr : String) (st : St)
    (hcre : ∀ b c d, con.create_route rt_id b c d = none) :
    isOkE (add_new_route con rand hosts failed_ips vpc_info rt_id dcidr st) = true := by
  unfold add_new_route
  split
  · rfl
  · rename_i a st1 heq
    split
    · rename_i e hfind
      rw [if_pos (find_err_kind hfind)]
      rfl
    · rename_i ni ne hfind
      split
      · rename_i e hrep
        rw [hcre] at hrep
        cases hrep
      · rfl

/-- With a healthy candidate available, all candidates resolvable and a
succeeding `create_route`, `_add_new_route` issues exactly one create
call for its table and prefix and returns normally. -/
lemma add_exact (con : Con) (rand : Nat → Nat) (hosts failed_ips : List String)
    (vpc_info : VpcInfo) (rt_id dcidr : String) (st : St)
    (hhealthy : ∃ a ∈ hosts, a ∉ failed_ips)
    (hres : ∀ a ∈ hosts, isOkE (find_instance_and_emi_by_ip vpc_info a) = true)
    (hcre : ∀ b c d, con.create_route rt_id b c d = none) :
    ∃ a i e, add_new_route con rand hosts failed_ips vpc_info rt_id dcidr st =
      .ok { routes := dinsert st.routes dcidr (a, i, e),
            trace := st.trace ++ [.createRoute rt_id dcidr i e],
            ctr := st.ctr + 1 } := by
  obtain ⟨a0, ha0, hnf0⟩ := hhealthy
  have hne : hosts ≠ [] := by
    intro h
    rw [h] at ha0
    cases ha0
  have hlt : rand st.ctr % hosts.length < hosts.length :=
    Nat.mod_lt _ (List.length_pos.mpr hne)
  obtain ⟨a, hch, ham, hanf⟩ := choose_some_of_healthy hne hlt ⟨a0, ha0, hnf0⟩
  have hfindOk := hres a ham
  obtain ⟨p, hfind⟩ := isOkE_exists hfindOk
  obtain ⟨ni, ne⟩ := p
  unfold add_new_route chooseM
  rw [if_neg hne]
  simp only [hch, hfind, hcre]
  exact ⟨a, ni.id, ne.id, rfl⟩

/-- Events appended while processing one existing route target that
route's own table and prefix and are never `create_route` calls; a
foreign route appends nothing. -/
lemma processRoute_trace (con : Con) (rand : Nat → Nat) (vpc_info : VpcInfo)
    (route_spec : List (String × List String)) (failed_ips : List String)
    (rt_id : String) (r : Route) (st : St) :
    ∃ l, (resSt (processRoute con rand vpc_info route_spec failed_ips rt_id r st)).trace
        = st.trace ++ l ∧
      (r.instance_id = none → l = []) ∧
      ∀ ev ∈ l, (∃ i e, ev = Event.replaceRoute rt_id r.destination_cidr_block i e) ∨
        ev = Event.deleteRoute rt_id r.destination_cidr_block := by
  unfold processRoute
  split
  · refine ⟨[], by simp [resSt], fun _ => rfl, by simp⟩
  · rename_i iid heq
    split
    · refine ⟨[], by simp [resSt], fun _ => rfl, by simp⟩
    · rename_i inst hlook
      split
      · obtain ⟨l, hl, hshape⟩ := check_trace con rand r.destination_cidr_block inst
          (get_instance_private_ip_from_route inst r).2
          (get_instance_private_ip_from_route inst r).1
          ((dlookup route_spec r.destination_cidr_block).getD []) failed_ips
          rt_id vpc_info st
        refine ⟨l, hl, fun hnone => ?_, fun ev hev => Or.inl (hshape ev hev)⟩
        rw [heq] at hnone
        cases hnone
      · split
        · refine ⟨[Event.deleteRoute rt_id r.destination_cidr_block],
            by simp [resSt], fun hnone => ?_, ?_⟩
          · rw [heq] at hnone
            cases hnone
          · intro ev hev
            rw [List.mem_singleton] at hev
            exact Or.inr hev
        · refine ⟨[Event.deleteRoute rt_id r.destination_cidr_block],
            by simp [resSt], fun hnone => ?_, ?_⟩
          · rw [heq] at hnone
            cases hnone
          · intro ev hev
            rw [List.mem_singleton] at hev
            exact Or.inr hev

/-- A raising path of `processRoute` leaves the cache untouched. -/
lemma processRoute_err_routes (con : Con) (rand : Nat → Nat) (vpc_info : VpcInfo)
    (route_spec : List (String × List String)) (failed_ips : List String)
    (rt_id : String) (r : Route) (st : St) :
    ∀ e' st', processRoute con rand vpc_info route_spec failed_ips rt_id r st
        = .error (e', st') → st'.routes = st.routes := by
  unfold processRoute
  split
  · intro e' st' h
    cases h
  · rename_i iid heq
    split
    · intro e' st' h
      injection h with h
      rw [Prod.mk.injEq] at h
      rw [← h.2]
    · rename_i inst hlook
      split
      · exact (check_routes con rand r.destination_cidr_block inst
          (get_instance_private_ip_from_route inst r).2
          (get_instance_private_ip_from_route inst r).1
          ((dlookup route_spec r.destination_cidr_block).getD []) failed_ips
          rt_id vpc_info st).2
      · split
        · intro e' st' h
          injection h with h
          rw [Prod.mk.injEq] at h
          rw [← h.2]
        · intro e' st' h
          cases h

/-- When the instance index resolves every attached route's instance id
and the mutation calls for this table succeed, processing a route
returns normally. -/
lemma processRoute_ok (con : Con) (rand : Nat → Nat) (vpc_info : VpcInfo)
    (route_spec : List (String × List String)) (failed_ips : List String)
    (rt_id : String) (r : Route) (st : St)
    (hdel : ∀ b, con.delete_route rt_id b = none)
    (hrepl : ∀ b c d, con.replace_route rt_id b c d = none)
    (hiid : ∀ iid, r.instance_id = some iid →
      (dlookup vpc_info.instance_by_id iid).isSome = true) :
    isOkE (processRoute con rand vpc_info route_spec failed_ips rt_id r st) = true := by
  unfold processRoute
  split
  · rfl
  · rename_i iid heq
    split
    · rename_i hlook
      have hs := hiid iid heq
      rw [hlook] at hs
      cases hs
    · split
      · exact check_ok con rand r.destination_cidr_block _ _ _ _ failed_ips
          rt_id vpc_info st hrepl
      · split
        · rename_i e hd
          rw [hdel] at hd
          cases hd
        · rfl

/-- Trace shape of the pass-1 inner loop: every appended event belongs
to an instance-attached route of the processed list (so pass 1 never
appends a `create_route` call, and never touches a foreign route's
table/prefix pair). -/
lemma routesLoop_trace (con : Con) (rand : Nat → Nat) (vpc_info : VpcInfo)
    (route_spec : List (String × List String)) (failed_ips : List String)
    (rt_id : String) :
    ∀ (routes : List Route) (seen : List String) (st : St),
    ∃ l, (resStSeen (routesLoop con rand vpc_info route_spec failed_ips rt_id
        routes seen st)).trace = st.trace ++ l ∧
      ∀ ev ∈ l, ∃ r', r' ∈ routes ∧ r'.instance_id ≠ none ∧
        ((∃ i e, ev = Event.replaceRoute rt_id r'.destination_cidr_block i e) ∨
          ev = Event.deleteRoute rt_id r'.destination_cidr_block) := by
  intro routes
  induction routes with
  | nil =>
    intro seen st
    exact ⟨[], by simp [routesLoop, resStSeen], by simp⟩
  | cons r rest ih =>
    intro seen st
    obtain ⟨l1, hl1, hforeign, hsh1⟩ :=
      processRoute_trace con rand vpc_info route_spec failed_ips rt_id r st
    cases hpr : processRoute con rand vpc_info route_spec failed_ips rt_id r st with
    | error es =>
      obtain ⟨e0, st0⟩ := es
      rw [hpr] at hl1
      rw [routesLoop, hpr]
      refine ⟨l1, hl1, ?_⟩
      intro ev hev
      have hatt : r.instance_id ≠ none := by
        intro hn
        rw [hforeign hn] at hev
        cases hev
      exact ⟨r, List.mem_cons_self r rest, hatt, hsh1 ev hev⟩
    | ok st1 =>
      rw [hpr] at hl1
      simp only [resSt] at hl1
      obtain ⟨l2, hl2, hsh2⟩ := ih (seen ++ [r.destination_cidr_block]) st1
      rw [routesLoop, hpr]
      refine ⟨l1 ++ l2, ?_, ?_⟩
      · show (resStSeen (routesLoop con rand vpc_info route_spec failed_ips rt_id rest
          (seen ++ [r.destination_cidr_block]) st1)).trace = _
        rw [hl2, hl1, List.append_assoc]
      · intro ev hev
        rcases List.mem_append.mp hev with h1 | h2
        · have hatt : r.instance_id ≠ none := by
            intro hn
            rw [hforeign hn] at h1
            cases h1
          exact ⟨r, List.mem_cons_self r rest, hatt, hsh1 ev h1⟩
        · obtain ⟨r', hr', hatt, hsh⟩ := hsh2 ev h2
          exact ⟨r', List.mem_cons_of_mem _ hr', hatt, hsh⟩

/-- With succeeding mutation calls and a complete instance index, the
pass-1 inner loop returns normally and records exactly the prefixes of
the table's routes (foreign ones included) as seen. -/
lemma routesLoop_ok (con : Con) (rand : Nat → Nat) (vpc_info : VpcInfo)
    (route_spec : List (String × List String)) (failed_ips : List String)
    (rt_id : String)
    (hdel : ∀ b, con.delete_route rt_id b = none)
    (hrepl : ∀ b c d, con.replace_route rt_id b c d = none) :
    ∀ (routes : List Route) (seen : List String) (st : St),
      (∀ r ∈ routes, ∀ iid, r.instance_id = some iid →
        (dlookup vpc_info.instance_by_id iid).isSome = true) →
      ∃ st', routesLoop con rand vpc_info route_spec failed_ips rt_id routes seen st
        = .ok (seen ++ routes.map Route.destination_cidr_block, st') := by
  intro routes
  induction routes with
  | nil =>
    intro seen st _
    exact ⟨st, by simp [routesLoop]⟩
  | cons r rest ih =>
    intro seen st hiid
    have hok := processRoute_ok con rand vpc_info route_spec failed_ips rt_id r st
      hdel hrepl (hiid r (List.mem_cons_self r rest))
    obtain ⟨st1, hpr⟩ := isOkE_exists hok
    obtain ⟨st', hrest⟩ :=
      ih (seen ++ [r.destination_cidr_block]) st1
        (fun r' h => hiid r' (List.mem_cons_of_mem _ h))
    refine ⟨st', ?_⟩
    rw [routesLoop, hpr]
    show routesLoop con rand vpc_info route_spec failed_ips rt_id rest
      (seen ++ [r.destination_cidr_block]) st1 = _
    rw [hrest]
    congr 1
    simp

/-- Inserting a fold of fresh keys appends them in order. -/
lemma foldl_dinsert_fresh (f : RouteTable → List String) :
    ∀ (tables : List RouteTable) (acc : List (String × List String)),
      (∀ t ∈ tables, t.id ∉ acc.map Prod.fst) →
      (tables.map RouteTable.id).Nodup →
      tables.foldl (fun a t => dinsert a t.id (f t)) acc
        = acc ++ tables.map (fun t => (t.id, f t)) := by
  intro tables
  induction tables with
  | nil =>
    intro acc _ _
    simp
  | cons rt rest ih =>
    intro acc hfresh hnodup
    rw [List.map_cons, List.nodup_cons] at hnodup
    rw [List.foldl_cons, dinsert_of_fresh _ (hfresh rt (List.mem_cons_self _ _))]
    rw [ih (acc ++ [(rt.id, f rt)]) ?_ hnodup.2]
    · simp
    · intro t ht
      simp only [List.map_append, List.mem_append]
      push_neg
      refine ⟨hfresh t (List.mem_cons_of_mem _ ht), ?_⟩
      simp only [List.map_cons, List.map_nil, List.mem_singleton]
      intro he
      exact hnodup.1 (he ▸ List.mem_map_of_mem RouteTable.id ht)

/-- Trace shape of pass 1, on either outcome: every appended event is a
replace or delete aimed at an instance-attached route of one of the
scanned tables. -/
lemma pass1_trace (con : Con) (rand : Nat → Nat) (vpc_info : VpcInfo)
    (route_spec : List (String × List String)) (failed_ips : List String) :
    ∀ (tables : List RouteTable) (acc : List (String × List String)) (st : St),
    ∃ l, (resStAcc (pass1 con rand vpc_info route_spec failed_ips tables acc st)).trace
        = st.trace ++ l ∧
      ∀ ev ∈ l, ∃ rt', rt' ∈ tables ∧ ∃ r', r' ∈ rt'.routes ∧ r'.instance_id ≠ none ∧
        ((∃ i e, ev = Event.replaceRoute rt'.id r'.destination_cidr_block i e) ∨
          ev = Event.deleteRoute rt'.id r'.destination_cidr_block) := by
  intro tables
  induction tables with
  | nil =>
    intro acc st
    exact ⟨[], by simp [pass1, resStAcc], by simp⟩
  | cons rt rest ih =>
    intro acc st
    obtain ⟨l1, hl1, hsh1⟩ :=
      routesLoop_trace con rand vpc_info route_spec failed_ips rt.id rt.routes [] st
    cases hrl : routesLoop con rand vpc_info route_spec failed_ips rt.id rt.routes [] st with
    | error es =>
      obtain ⟨e0, st0⟩ := es
      rw [hrl] at hl1
      rw [pass1, hrl]
      refine ⟨l1, hl1, ?_⟩
      intro ev hev
      obtain ⟨r', hr', hatt, hsh⟩ := hsh1 ev hev
      exact ⟨rt, List.mem_cons_self rt rest, r', hr', hatt, hsh⟩
    | ok p =>
      obtain ⟨seen, st1⟩ := p
      rw [hrl] at hl1
      simp only [resStSeen] at hl1
      obtain ⟨l2, hl2, hsh2⟩ := ih (dinsert acc rt.id seen) st1
      rw [pass1, hrl]
      refine ⟨l1 ++ l2, ?_, ?_⟩
      · show (resStAcc (pass1 con rand vpc_info route_spec failed_ips rest
          (dinsert acc rt.id seen) st1)).trace = _
        rw [hl2, hl1, List.append_assoc]
      · intro ev hev
        rcases List.mem_append.mp hev with h1 | h2
        · obtain ⟨r', hr', hatt, hsh⟩ := hsh1 ev h1
          exact ⟨rt, List.mem_cons_self rt rest, r', hr', hatt, hsh⟩
        · obtain ⟨rt', hrt', hrest⟩ := hsh2 ev h2
          exact ⟨rt', List.mem_cons_of_mem _ hrt', hrest⟩

/-- With succeeding mutation calls and a complete instance index, pass 1
returns normally and `routes_in_rts` maps every table id to the list of
its routes' prefixes. -/
lemma pass1_ok (con : Con) (rand : Nat → Nat) (vpc_info : VpcInfo)
    (route_spec : List (String × List String)) (failed_ips : List String)
    (hdel : ∀ a b, con.delete_route a b = none)
    (hrepl : ∀ a b c d, con.replace_route a b c d = none) :
    ∀ (tables : List RouteTable) (acc : List (String × List String)) (st : St),
      (∀ rt ∈ tables, ∀ r ∈ rt.routes, ∀ iid, r.instance_id = some iid →
        (dlookup vpc_info.instance_by_id iid).isSome = true) →
      ∃ st', pass1 con rand vpc_info route_spec failed_ips tables acc st
        = .ok (tables.foldl (fun a t =>
            dinsert a t.id (t.routes.map Route.destination_cidr_block)) acc, st') := by
  intro tables
  induction tables with
  | nil =>
    intro acc st _
    exact ⟨st, by simp [pass1]⟩
  | cons rt rest ih =>
    intro acc st hiid
    obtain ⟨st1, hrl⟩ := routesLoop_ok con rand vpc_info route_spec failed_ips rt.id
      (fun b => hdel rt.id b) (fun b c d => hrepl rt.id b c d) rt.routes [] st
      (fun r h => hiid rt (List.mem_cons_self rt rest) r h)
    obtain ⟨st', hrest⟩ :=
      ih (dinsert acc rt.id ([] ++ rt.routes.map Route.destination_cidr_block)) st1
        (fun rt' h => hiid rt' (List.mem_cons_of_mem _ h))
    refine ⟨st', ?_⟩
    rw [pass1, hrl]
    show pass1 con rand vpc_info route_spec failed_ips rest
      (dinsert acc rt.id ([] ++ rt.routes.map Route.destination_cidr_block)) st1 = _
    rw [hrest]
    simp

lemma isCreateFor_create (rid p rid' p' i e : String) :
    isCreateFor rid p (Event.createRoute rid' p' i e) = ((rid' == rid) && (p' == p)) :=
  rfl

lemma length_filter_eq_zero_of {α : Type} {p : α → Bool} {l : List α}
    (h : ∀ a ∈ l, p a = false) : (l.filter p).length = 0 := by
  induction l with
  | nil => rfl
  | cons x xs ih =>
    have hx := h x (List.mem_cons_self x xs)
    simp [List.filter_cons, hx, ih (fun a ha => h a (List.mem_cons_of_mem _ ha))]

/-- Trace shape of the pass-2 inner loop: every appended event is a
create call, for this prefix, aimed at some `routes_in_rts` entry that
did not see this prefix. -/
lemma seenLoop_trace (con : Con) (rand : Nat → Nat) (vpc_info : VpcInfo)
    (failed_ips : List String) (dcidr : String) (hosts : List String) :
    ∀ (lst : List (String × List String)) (st : St),
    ∃ l, (resSt (seenLoop con rand vpc_info failed_ips dcidr hosts lst st)).trace
        = st.trace ++ l ∧
      ∀ ev ∈ l, ∃ rid L, (rid, L) ∈ lst ∧ dcidr ∉ L ∧
        ∃ i e, ev = Event.createRoute rid dcidr i e := by
  intro lst
  induction lst with
  | nil =>
    intro st
    exact ⟨[], by simp [seenLoop, resSt], by simp⟩
  | cons pr rest ih =>
    obtain ⟨rid0, L0⟩ := pr
    intro st
    rw [seenLoop]
    by_cases hmem : dcidr ∈ L0
    · rw [if_pos hmem]
      obtain ⟨l, hl, hsh⟩ := ih st
      refine ⟨l, hl, ?_⟩
      intro ev hev
      obtain ⟨rid, L, hm, hnm, he⟩ := hsh ev hev
      exact ⟨rid, L, List.mem_cons_of_mem _ hm, hnm, he⟩
    · rw [if_neg hmem]
      obtain ⟨l1, hl1, hsh1⟩ := add_trace con rand hosts failed_ips vpc_info rid0 dcidr st
      cases hadd : add_new_route con rand hosts failed_ips vpc_info rid0 dcidr st with
      | error es =>
        obtain ⟨e0, st0⟩ := es
        rw [hadd] at hl1
        refine ⟨l1, hl1, ?_⟩
        intro ev hev
        obtain ⟨i, e, he⟩ := hsh1 ev hev
        exact ⟨rid0, L0, List.mem_cons_self _ _, hmem, i, e, he⟩
      | ok st1 =>
        rw [hadd] at hl1
        simp only [resSt] at hl1
        obtain ⟨l2, hl2, hsh2⟩ := ih st1
        refine ⟨l1 ++ l2, ?_, ?_⟩
        · show (resSt (seenLoop con rand vpc_info failed_ips dcidr hosts rest st1)).trace = _
          rw [hl2, hl1, List.append_assoc]
        · intro ev hev
          rcases List.mem_append.mp hev with h1 | h2
          · obtain ⟨i, e, he⟩ := hsh1 ev h1
            exact ⟨rid0, L0, List.mem_cons_self _ _, hmem, i, e, he⟩
          · obtain ⟨rid, L, hm, hnm, he⟩ := hsh2 ev h2
            exact ⟨rid, L, List.mem_cons_of_mem _ hm, hnm, he⟩

/-- With a healthy candidate, resolvable candidates and succeeding
`create_route` calls, the pass-2 inner loop returns normally and issues
exactly one create call per entry that did not see the prefix. -/
lemma seenLoop_count (con : Con) (rand : Nat → Nat) (vpc_info : VpcInfo)
    (failed_ips : List String) (dcidr : String) (hosts : List String)
    (hhealthy : ∃ a ∈ hosts, a ∉ failed_ips)
    (hres : ∀ a ∈ hosts, isOkE (find_instance_and_emi_by_ip vpc_info a) = true)
    (hcre : ∀ a b c d, con.create_route a b c d = none) :
    ∀ (lst : List (String × List String)) (st : St),
      (lst.map Prod.fst).Nodup →
      ∃ st' l, seenLoop con rand vpc_info failed_ips dcidr hosts lst st = .ok st' ∧
        st'.trace = st.trace ++ l ∧
        (∀ ev ∈ l, ∃ rid L, (rid, L) ∈ lst ∧ dcidr ∉ L ∧
          ∃ i e, ev = Event.createRoute rid dcidr i e) ∧
        ∀ rid L, (rid, L) ∈ lst → dcidr ∉ L →
          (l.filter (isCreateFor rid dcidr)).length = 1 := by
  intro lst
  induction lst with
  | nil =>
    intro st _
    refine ⟨st, [], by simp [seenLoop], by simp, by simp, ?_⟩
    intro rid L hm
    cases hm
  | cons pr rest ih =>
    obtain ⟨rid0, L0⟩ := pr
    intro st hnodup
    rw [List.map_cons, List.nodup_cons] at hnodup
    rw [seenLoop]
    by_cases hmem : dcidr ∈ L0
    · rw [if_pos hmem]
      obtain ⟨st', l, hok, htr, hsh, hcount⟩ := ih st hnodup.2
      refine ⟨st', l, hok, htr, ?_, ?_⟩
      · intro ev hev
        obtain ⟨rid, L, hm, hnm, he⟩ := hsh ev hev
        exact ⟨rid, L, List.mem_cons_of_mem _ hm, hnm, he⟩
      · intro rid L hm hnm
        rcases List.mem_cons.mp hm with he | hmrest
        · rw [Prod.mk.injEq] at he
          exact absurd (he.2 ▸ hmem) hnm
        · exact hcount rid L hmrest hnm
    · rw [if_neg hmem]
      obtain ⟨a, i0, e0, hadd⟩ := add_exact con rand hosts failed_ips vpc_info rid0 dcidr st
        hhealthy hres (fun b c d => hcre rid0 b c d)
      rw [hadd]
      obtain ⟨st', l2, hok, htr2, hsh2, hcount2⟩ := ih _ hnodup.2
      refine ⟨st', Event.createRoute rid0 dcidr i0 e0 :: l2, hok, ?_, ?_, ?_⟩
      · rw [htr2]
        simp
      · intro ev hev
        rcases List.mem_cons.mp hev with he | h2
        · exact ⟨rid0, L0, List.mem_cons_self _ _, hmem, i0, e0, he⟩
        · obtain ⟨rid, L, hm, hnm, he⟩ := hsh2 ev h2
          exact ⟨rid, L, List.mem_cons_of_mem _ hm, hnm, he⟩
      · intro rid L hm hnm
        have hz : ∀ hrid, hrid ∈ rest.map Prod.fst → hrid ≠ rid0 := by
          intro hrid hmm he
          exact hnodup.1 (he ▸ hmm)
        rcases List.mem_cons.mp hm with he | hmrest
        · rw [Prod.mk.injEq] at he
          rw [List.filter_cons]
          have hev0 : isCreateFor rid dcidr (Event.createRoute rid0 dcidr i0 e0) = true := by
            simp [isCreateFor, he.1]
          rw [hev0]
          have hz2 : (l2.filter (isCreateFor rid dcidr)).length = 0 := by
            refine length_filter_eq_zero_of ?_
            intro ev hev
            obtain ⟨rid', L', hm', hnm', i', e', he'⟩ := hsh2 ev hev
            rw [he']
            have : rid' ≠ rid0 := hz rid' (List.mem_map_of_mem Prod.fst hm')
            simp [isCreateFor, he.1]
            intro hcon
            exact absurd hcon this
          simp [hz2]
        · have hrid : rid ≠ rid0 :=
            hz rid (List.mem_map_of_mem Prod.fst hmrest)
          rw [List.filter_cons]
          have hev0 : isCreateFor rid dcidr (Event.createRoute rid0 dcidr i0 e0) = false := by
            simp [isCreateFor]
            intro hcon
            exact absurd hcon.symm hrid
          rw [hev0]
          simpa using hcount2 rid L hmrest hnm

/-- Trace shape of pass 2, on either outcome: every appended event is a
create call for a spec prefix, aimed at a `routes_in_rts` entry that
did not see that prefix. -/
lemma pass2_trace (con : Con) (rand : Nat → Nat) (vpc_info : VpcInfo)
    (failed_ips : List String) :
    ∀ (spec acc : List (String × List String)) (st : St),
    ∃ l, (resSt (pass2 con rand vpc_info failed_ips spec acc st)).trace
        = st.trace ++ l ∧
      ∀ ev ∈ l, ∃ p hosts, (p, hosts) ∈ spec ∧ ∃ rid L, (rid, L) ∈ acc ∧ p ∉ L ∧
        ∃ i e, ev = Event.createRoute rid p i e := by
  intro spec
  induction spec with
  | nil =>
    intro acc st
    exact ⟨[], by simp [pass2, resSt], by simp⟩
  | cons pr rest ih =>
    obtain ⟨p0, hosts0⟩ := pr
    intro acc st
    obtain ⟨l1, hl1, hsh1⟩ := seenLoop_trace con rand vpc_info failed_ips p0 hosts0 acc st
    cases hsl : seenLoop con rand vpc_info failed_ips p0 hosts0 acc st with
    | error es =>
      obtain ⟨e0, st0⟩ := es
      rw [hsl] at hl1
      rw [pass2, hsl]
      refine ⟨l1, hl1, ?_⟩
      intro ev hev
      obtain ⟨rid, L, hm, hnm, i, e, he⟩ := hsh1 ev hev
      exact ⟨p0, hosts0, List.mem_cons_self _ _, rid, L, hm, hnm, i, e, he⟩
    | ok st1 =>
      rw [hsl] at hl1
      simp only [resSt] at hl1
      obtain ⟨l2, hl2, hsh2⟩ := ih acc st1
      rw [pass2, hsl]
      refine ⟨l1 ++ l2, ?_, ?_⟩
      · show (resSt (pass2 con rand vpc_info failed_ips rest acc st1)).trace = _
        rw [hl2, hl1, List.append_assoc]
      · intro ev hev
        rcases List.mem_append.mp hev with h1 | h2
        · obtain ⟨rid, L, hm, hnm, i, e, he⟩ := hsh1 ev h1
          exact ⟨p0, hosts0, List.mem_cons_self _ _, rid, L, hm, hnm, i, e, he⟩
        · obtain ⟨p, hosts, hps, hrest2⟩ := hsh2 ev h2
          exact ⟨p, hosts, List.mem_cons_of_mem _ hps, hrest2⟩

/-- With per-prefix healthy candidates, resolvable candidates, and
succeeding `create_route` calls, pass 2 returns normally and issues
exactly one create per (spec prefix, table) pair whose table did not
see the prefix, and none for pairs whose table saw it. -/
lemma pass2_count (con : Con) (rand : Nat → Nat) (vpc_info : VpcInfo)
    (failed_ips : List String)
    (hcre : ∀ a b c d, con.create_route a b c d = none) :
    ∀ (spec acc : List (String × List String)) (st : St),
      (spec.map Prod.fst).Nodup →
      (acc.map Prod.fst).Nodup →
      (∀ p hosts, (p, hosts) ∈ spec → ∃ a ∈ hosts, a ∉ failed_ips) →
      (∀ p hosts, (p, hosts) ∈ spec → ∀ a ∈ hosts,
        isOkE (find_instance_and_emi_by_ip vpc_info a) = true) →
      ∃ st' l, pass2 con rand vpc_info failed_ips spec acc st = .ok st' ∧
        st'.trace = st.trace ++ l ∧
        (∀ ev ∈ l, ∃ p hosts, (p, hosts) ∈ spec ∧ ∃ rid L, (rid, L) ∈ acc ∧ p ∉ L ∧
          ∃ i e, ev = Event.createRoute rid p i e) ∧
        ∀ p hosts rid L, (p, hosts) ∈ spec → (rid, L) ∈ acc →
          (l.filter (isCreateFor rid p)).length = (if p ∈ L then 0 else 1) := by
  intro spec
  induction spec with
  | nil =>
    intro acc st _ _ _ _
    refine ⟨st, [], by simp [pass2], by simp, by simp, ?_⟩
    intro p hosts rid L hm
    cases hm
  | cons pr rest ih =>
    obtain ⟨p0, hosts0⟩ := pr
    intro acc st hnodupS hnodupA hhealthy hres
    rw [List.map_cons, List.nodup_cons] at hnodupS
    obtain ⟨st1, l1, hok1, htr1, hsh1, hcount1⟩ :=
      seenLoop_count con rand vpc_info failed_ips p0 hosts0
        (hhealthy p0 hosts0 (List.mem_cons_self _ _))
        (hres p0 hosts0 (List.mem_cons_self _ _)) hcre acc st hnodupA
    obtain ⟨st', l2, hok2, htr2, hsh2, hcount2⟩ :=
      ih acc st1 hnodupS.2 hnodupA
        (fun p hosts hm => hhealthy p hosts (List.mem_cons_of_mem _ hm))
        (fun p hosts hm => hres p hosts (List.mem_cons_of_mem _ hm))
    rw [pass2, hok1]
    refine ⟨st', l1 ++ l2, hok2, ?_, ?_, ?_⟩
    · rw [htr2, htr1, List.append_assoc]
    · intro ev hev
      rcases List.mem_append.mp hev with h1 | h2
      · obtain ⟨rid, L, hm, hnm, i, e, he⟩ := hsh1 ev h1
        exact ⟨p0, hosts0, List.mem_cons_self _ _, rid, L, hm, hnm, i, e, he⟩
      · obtain ⟨p, hosts, hps, hrest2⟩ := hsh2 ev h2
        exact ⟨p, hosts, List.mem_cons_of_mem _ hps, hrest2⟩
    · intro p hosts rid L hmspec hmacc
      rw [List.filter_append, List.length_append]
      have hkeyrest : ∀ q, q ∈ rest.map Prod.fst → q ≠ p0 := by
        intro q hq he
        exact hnodupS.1 (he ▸ hq)
      rcases List.mem_cons.mp hmspec with he | hmrest
      · rw [Prod.mk.injEq] at he
        have hl2z : (l2.filter (isCreateFor rid p)).length = 0 := by
          refine length_filter_eq_zero_of ?_
          intro ev hev
          obtain ⟨p', hosts', hps', rid', L', hm', hnm', i', e', he'⟩ := hsh2 ev hev
          rw [he']
          have hp' : p' ≠ p0 := hkeyrest p' (List.mem_map_of_mem Prod.fst hps')
          have hcid : (p' == p) = false := by
            refine beq_eq_false_iff_ne.mpr ?_
            rw [he.1]
            exact hp'
          rw [isCreateFor_create, hcid, Bool.and_false]
        rw [hl2z, Nat.add_zero]
        by_cases hseen : p ∈ L
        · rw [if_pos hseen]
          refine length_filter_eq_zero_of ?_
          intro ev hev
          obtain ⟨rid', L', hm', hnm', i', e', he'⟩ := hsh1 ev hev
          rw [he']
          by_cases hr : rid' = rid
          · exfalso
            have hLL : L' = L := mem_unique_of_nodup_keys hnodupA (hr ▸ hm') hmacc
            apply hnm'
            rw [hLL, ← he.1]
            exact hseen
          · have hrid : (rid' == rid) = false := beq_eq_false_iff_ne.mpr hr
            rw [isCreateFor_create, hrid, Bool.false_and]
        · rw [if_neg hseen]
          rw [he.1] at hseen
          exact he.1 ▸ hcount1 rid L hmacc hseen
      · have hp : p ≠ p0 := hkeyrest p (List.mem_map_of_mem Prod.fst hmrest)
        have hl1z : (l1.filter (isCreateFor rid p)).length = 0 := by
          refine length_filter_eq_zero_of ?_
          intro ev hev
          obtain ⟨rid', L', hm', hnm', i', e', he'⟩ := hsh1 ev hev
          rw [he']
          have hcid : (p0 == p) = false :=
            beq_eq_false_iff_ne.mpr (fun hcon => hp hcon.symm)
          rw [isCreateFor_create, hcid, Bool.and_false]
        rw [hl1z, Nat.zero_add]
        exact hcount2 p hosts rid L hmrest hmacc

lemma isErrE_exists {ε α : Type} {x : Except ε α} (h : isOkE x = false) :
    ∃ e, x = .error e := by
  cases x with
  | ok v => cases h
  | error e => exact ⟨e, rfl⟩

/-- Every exception kind is caught by one of `handle_spec`'s two
handlers. -/
lemma caught_or_noAuth (e : Exc) :
    caughtByStandardError e = true ∨ e = .noAuthHandlerFound := by
  cases e <;> simp [caughtByStandardError]

lemma vpc_caught {e : Exc} (h : isVpcRouteSetError e = true) :
    caughtByStandardError e = true := by
  cases e <;> first | rfl | cases h

/-- `get_vpc_overview` only ever raises `VpcRouteSetError`. -/
lemma overview_err_kind {con : Con} {vpc_id : Option String} {region : String}
    {e : Exc} (h : get_vpc_overview con vpc_id region = .error e) :
    isVpcRouteSetError e = true := by
  unfold get_vpc_overview at h
  split at h
  · injection h with h
    rw [← h]
    rfl
  · split at h
    · injection h with h
      rw [← h]
      rfl
    · cases h

/-- Any normal return of the pass-1 inner loop has recorded exactly the
prefixes of the processed routes, in order, whatever the mutation
outcomes were. -/
lemma routesLoop_seen (con : Con) (rand : Nat → Nat) (vpc_info : VpcInfo)
    (route_spec : List (String × List String)) (failed_ips : List String)
    (rt_id : String) :
    ∀ (routes : List Route) (seen : List String) (st : St) (seen' : List String) (st' : St),
      routesLoop con rand vpc_info route_spec failed_ips rt_id routes seen st
        = .ok (seen', st') →
      seen' = seen ++ routes.map Route.destination_cidr_block := by
  intro routes
  induction routes with
  | nil =>
    intro seen st seen' st' h
    rw [routesLoop] at h
    injection h with h
    rw [Prod.mk.injEq] at h
    rw [← h.1]
    simp
  | cons r rest ih =>
    intro seen st seen' st' h
    rw [routesLoop] at h
    cases hpr : processRoute con rand vpc_info route_spec failed_ips rt_id r st with
    | error es =>
      rw [hpr] at h
      cases h
    | ok st1 =>
      rw [hpr] at h
      have := ih (seen ++ [r.destination_cidr_block]) st1 seen' st' h
      rw [this]
      simp

/-- Any normal return of pass 1 yields the `routes_in_rts` dictionary
folding every table's prefixes in, whatever the mutation outcomes. -/
lemma pass1_acc_of_ok (con : Con) (rand : Nat → Nat) (vpc_info : VpcInfo)
    (route_spec : List (String × List String)) (failed_ips : List String) :
    ∀ (tables : List RouteTable) (acc : List (String × List String)) (st : St)
      (acc' : List (String × List String)) (st' : St),
      pass1 con rand vpc_info route_spec failed_ips tables acc st = .ok (acc', st') →
      acc' = tables.foldl (fun a t =>
        dinsert a t.id (t.routes.map Route.destination_cidr_block)) acc := by
  intro tables
  induction tables with
  | nil =>
    intro acc st acc' st' h
    rw [pass1] at h
    injection h with h
    rw [Prod.mk.injEq] at h
    rw [← h.1]
    simp
  | cons rt rest ih =>
    intro acc st acc' st' h
    rw [pass1] at h
    cases hrl : routesLoop con rand vpc_info route_spec failed_ips rt.id rt.routes [] st with
    | error es =>
      rw [hrl] at h
      cases h
    | ok p =>
      obtain ⟨seen, st1⟩ := p
      rw [hrl] at h
      have hseen := routesLoop_seen con rand vpc_info route_spec failed_ips rt.id
        rt.routes [] st seen st1 hrl
      rw [List.nil_append] at hseen
      have := ih (dinsert acc rt.id seen) st1 acc' st' h
      rw [this, hseen]
      simp

/-! ### Claim C6 -/

/-- C6: for an existing instance-attached route whose prefix is in the
route spec, when the route's current target address is among the
spec's candidates and not failed, the route is kept: processing it
issues no create, replace or delete call and leaves the state — the
cache entry for that prefix included — exactly unchanged. -/
theorem c6_keep_healthy_route :
    ∀ (con : Con) (rand : Nat → Nat) (vpc_info : VpcInfo)
      (route_spec : List (String × List String)) (failed_ips : List String)
      (rt_id : String) (r : Route) (iid : String) (inst : Instance)
      (hosts : List String) (a : String) (st : St),
      r.instance_id = some iid →
      dlookup vpc_info.instance_by_id iid = some inst →
      dlookup route_spec r.destination_cidr_block = some hosts →
      (get_instance_private_ip_from_route inst r).1 = some a →
      a ∈ hosts →
      a ∉ failed_ips →
      processRoute con rand vpc_info route_spec failed_ips rt_id r st = .ok st := by
  intro con rand vpc_info route_spec failed_ips rt_id r iid inst hosts a st
    hiid hlook hspec hip hmem hnf
  have htr : hostsTruthy (some hosts) = true := by
    simp [hostsTruthy]
    exact List.ne_nil_of_mem hmem
  have hcond : (optMem (some a) hosts && !optMem (some a) failed_ips) = true := by
    simp [optMem, hmem, hnf]
  unfold processRoute
  simp only [hiid, hlook, hspec, htr, if_true]
  unfold check_or_update_route
  simp only [hip, Option.getD_some]
  rw [if_pos hcond]

/-- An instance and snapshot used to instantiate the keep branch. -/
def instC6 : Instance :=
  { id := "i-1", interfaces := [{ id := "eni-1", private_ip_address := "10.0.0.5" }] }

def vpcC6 : VpcInfo :=
  { zones := [], vpc := { id := "vpc-1" }, subnets := [],
    route_tables := [{ id := "rt-1",
                       routes := [{ destination_cidr_block := "10.0.1.0/24",
                                    instance_id := some "i-1",
                                    interface_id := some "eni-1" }] }],
    instances := [instC6], instance_by_id := [("i-1", instC6)] }

/-- Concrete instantiation of `c6_keep_healthy_route`: a healthy
in-spec route is processed without any effect. -/
theorem c6_keep_healthy_route_witness :
    processRoute conAllOk (fun _ => 0) vpcC6 [("10.0.1.0/24", ["10.0.0.5"])] []
        "rt-1" { destination_cidr_block := "10.0.1.0/24",
                 instance_id := some "i-1", interface_id := some "eni-1" }
        { routes := [], trace := [], ctr := 0 }
      = .ok { routes := [], trace := [], ctr := 0 } :=
  c6_keep_healthy_route conAllOk (fun _ => 0) vpcC6 [("10.0.1.0/24", ["10.0.0.5"])] []
    "rt-1" _ "i-1" instC6 ["10.0.0.5"] "10.0.0.5" _
    rfl rfl rfl rfl (by decide) (by decide)

/-! ### Claim C2 -/

/-- A snapshot containing a route whose target instance id is absent
from the instance index, followed by a route that reconciliation would
otherwise delete. -/
def instC2 : Instance :=
  { id := "i-1", interfaces := [{ id := "eni-1", private_ip_address := "10.0.0.5" }] }

def vpcC2 : VpcInfo :=
  { zones := [], vpc := { id := "vpc-1" }, subnets := [],
    route_tables := [{ id := "rt-1",
                       routes := [{ destination_cidr_block := "10.0.1.0/24",
                                    instance_id := some "i-bad", interface_id := none },
                                  { destination_cidr_block := "10.0.2.0/24",
                                    instance_id := some "i-1",
                                    interface_id := some "eni-1" }] }],
    instances := [instC2], instance_by_id := [("i-1", instC2)] }

/-- C2 counterexample: the failed instance-by-id lookup for the first
route raises a `KeyError` that is NOT caught at route granularity: the
whole reconciliation aborts, and the second route of the cycle — whose
delete call would have succeeded — is never processed (the returned
trace holds no call at all). -/
theorem c2_counterexample :
    process_route_spec_config conAllOk (fun _ => 0) vpcC2 [] []
        { routes := [], trace := [], ctr := 0 }
      = .error (.keyLookup "i-bad", { routes := [], trace := [], ctr := 0 }) ∧
    conAllOk.delete_route "rt-1" "10.0.2.0/24" = none :=
  ⟨rfl, rfl⟩

/-- C2 amended: a `VpcRouteSetError` raised by the address-based
instance/interface lookup is caught at the granularity of the single
route (replace path) or single missing prefix (create path), and the
loops continue; but a failed instance-by-id lookup raises an uncaught
`KeyError` that aborts the remainder of the reconciliation — it is
caught only by the top-level cycle handler. -/
theorem c2_lookup_isolation_amended :
    (∀ (con : Con) (rand : Nat → Nat) (dcidr : String) (ci : Instance)
      (ce : Option ENI) (ipa : Option String) (hosts failed_ips : List String)
      (rt_id : String) (vpc_info : VpcInfo) (st st1 : St) (a : String),
      (optMem ipa hosts && !optMem ipa failed_ips) = false →
      chooseM rand hosts failed_ips st = (some a, st1) →
      isOkE (find_instance_and_emi_by_ip vpc_info a) = false →
      check_or_update_route con rand dcidr ci ce ipa hosts failed_ips rt_id vpc_info st
        = .ok st1) ∧
    (∀ (con : Con) (rand : Nat → Nat) (hosts failed_ips : List String)
      (vpc_info : VpcInfo) (rt_id dcidr : String) (st st1 : St) (a : String),
      chooseM rand hosts failed_ips st = (some a, st1) →
      isOkE (find_instance_and_emi_by_ip vpc_info a) = false →
      add_new_route con rand hosts failed_ips vpc_info rt_id dcidr st = .ok st1) ∧
    (∀ (con : Con) (rand : Nat → Nat) (vpc_info : VpcInfo)
      (route_spec : List (String × List String)) (failed_ips : List String)
      (rt_id : String) (r : Route) (iid : String) (st : St),
      r.instance_id = some iid →
      dlookup vpc_info.instance_by_id iid = none →
      processRoute con rand vpc_info route_spec failed_ips rt_id r st
        = .error (.keyLookup iid, st)) := by
  refine ⟨?_, ?_, ?_⟩
  · intro con rand dcidr ci ce ipa hosts failed_ips rt_id vpc_info st st1 a
      hcond hch hfail
    obtain ⟨e, hfind⟩ := isErrE_exists hfail
    unfold check_or_update_route
    simp only [hcond, hch, hfind]
    rw [if_pos (find_err_kind hfind)]
    rfl
  · intro con rand hosts failed_ips vpc_info rt_id dcidr st st1 a hch hfail
    obtain ⟨e, hfind⟩ := isErrE_exists hfail
    unfold add_new_route
    simp only [hch, hfind]
    rw [if_pos (find_err_kind hfind)]
  · intro con rand vpc_info route_spec failed_ips rt_id r iid st hiid hlook
    unfold processRoute
    simp only [hiid, hlook]

/-- Concrete instantiation of `c2_lookup_isolation_amended`: the
missing instance id "i-bad" aborts route processing with a `KeyError`
carrying the state unchanged. -/
theorem c2_lookup_isolation_witness :
    processRoute conAllOk (fun _ => 0) vpcC2 [] [] "rt-1"
        { destination_cidr_block := "10.0.1.0/24",
          instance_id := some "i-bad", interface_id := none }
        { routes := [], trace := [], ctr := 0 }
      = .error (.keyLookup "i-bad", { routes := [], trace := [], ctr := 0 }) :=
  c2_lookup_isolation_amended.2.2 conAllOk (fun _ => 0) vpcC2 [] [] "rt-1" _ "i-bad"
    { routes := [], trace := [], ctr := 0 } rfl rfl

/-! ### Claim C3 -/

def instC3a : Instance :=
  { id := "i-1", interfaces := [{ id := "eni-1", private_ip_address := "10.0.0.5" }] }

def instC3b : Instance :=
  { id := "i-2", interfaces := [{ id := "eni-2", private_ip_address := "10.0.0.6" }] }

/-- A connection whose `replace_route` raises the boto error a real
EC2 call failure raises. -/
def conFailReplace : Con :=
  { conAllOk with replace_route := fun _ _ _ _ => some (.botoStandard "EC2ResponseError") }

def vpcC3 : VpcInfo :=
  { zones := [], vpc := { id := "vpc-1" }, subnets := [],
    route_tables := [{ id := "rt-1",
                       routes := [{ destination_cidr_block := "10.0.1.0/24",
                                    instance_id := some "i-1",
                                    interface_id := some "eni-1" },
                                  { destination_cidr_block := "10.0.9.0/24",
                                    instance_id := some "i-1",
                                    interface_id := some "eni-1" }] }],
    instances := [instC3a, instC3b],
    instance_by_id := [("i-1", instC3a), ("i-2", instC3b)] }

/-- C3 counterexample: a `replace_route` failure (boto raises an
`EC2ResponseError`, a `StandardError`, never a `VpcRouteSetError`) is
not caught by the per-decision handler: the cache is left unchanged,
but the cycle does NOT continue with the next decision — the second
route of the table, whose delete call would have succeeded, is never
reached and the error escapes the reconciler. -/
theorem c3_counterexample :
    process_route_spec_config conFailReplace (fun _ => 0) vpcC3
        [("10.0.1.0/24", ["10.0.0.6"])] [] { routes := [], trace := [], ctr := 0 }
      = .error (.botoStandard "EC2ResponseError",
          { routes := [],
            trace := [.replaceRoute "rt-1" "10.0.1.0/24" "i-2" "eni-2"], ctr := 1 }) ∧
    conFailReplace.delete_route "rt-1" "10.0.9.0/24" = none :=
  ⟨rfl, rfl⟩

/-- C3 amended: the cache entry for a prefix is written only after the
corresponding create or replace call returns successfully, and on any
failing call the entry is unchanged; but only a `VpcRouteSetError`
failure is swallowed at the decision (the cycle then continues) — a
boto-raised mutation error propagates out of the decision, aborting
the remainder of the reconciliation (it is caught at the cycle
orchestrator). -/
theorem c3_cache_only_after_success_amended :
    (∀ (con : Con) (rand : Nat → Nat) (dcidr : String) (ci : Instance)
      (ce : Option ENI) (ipa : Option String) (hosts failed_ips : List String)
      (rt_id : String) (vpc_info : VpcInfo) (st st' : St),
      check_or_update_route con rand dcidr ci ce ipa hosts failed_ips rt_id vpc_info st
          = .ok st' →
      st'.routes = st.routes ∨
        ∃ a i e, con.replace_route rt_id dcidr i e = none ∧
          st'.routes = dinsert st.routes dcidr (a, i, e)) ∧
    (∀ (con : Con) (rand : Nat → Nat) (dcidr : String) (ci : Instance)
      (ce : Option ENI) (ipa : Option String) (hosts failed_ips : List String)
      (rt_id : String) (vpc_info : VpcInfo) (st : St) (e' : Exc) (st' : St),
      check_or_update_route con rand dcidr ci ce ipa hosts failed_ips rt_id vpc_info st
          = .error (e', st') →
      st'.routes = st.routes) ∧
    (∀ (con : Con) (rand : Nat → Nat) (hosts failed_ips : List String)
      (vpc_info : VpcInfo) (rt_id dcidr : String) (st st' : St),
      add_new_route con rand hosts failed_ips vpc_info rt_id dcidr st = .ok st' →
      st'.routes = st.routes ∨
        ∃ a i e, con.create_route rt_id dcidr i e = none ∧
          st'.routes = dinsert st.routes dcidr (a, i, e)) ∧
    (∀ (con : Con) (rand : Nat → Nat) (hosts failed_ips : List String)
      (vpc_info : VpcInfo) (rt_id dcidr : String) (st : St) (e' : Exc) (st' : St),
      add_new_route con rand hosts failed_ips vpc_info rt_id dcidr st = .error (e', st') →
      st'.routes = st.routes) ∧
    (∀ (con : Con) (rand : Nat → Nat) (dcidr : String) (ci : Instance)
      (ce : Option ENI) (ipa : Option String) (hosts failed_ips : List String)
      (rt_id : String) (vpc_info : VpcInfo) (st st1 : St) (a : String)
      (ni : Instance) (ne : ENI) (e : Exc),
      (optMem ipa hosts && !optMem ipa failed_ips) = false →
      chooseM rand hosts failed_ips st = (some a, st1) →
      find_instance_and_emi_by_ip vpc_info a = .ok (ni, ne) →
      con.replace_route rt_id dcidr ni.id ne.id = some e →
      isVpcRouteSetError e = true →
      check_or_update_route con rand dcidr ci ce ipa hosts failed_ips rt_id vpc_info st
        = .ok { st1 with
            trace := st1.trace ++ [.replaceRoute rt_id dcidr ni.id ne.id] }) ∧
    (∀ (con : Con) (rand : Nat → Nat) (dcidr : String) (ci : Instance)
      (ce : Option ENI) (ipa : Option String) (hosts failed_ips : List String)
      (rt_id : String) (vpc_info : VpcInfo) (st st1 : St) (a : String)
      (ni : Instance) (ne : ENI) (e : Exc),
      (optMem ipa hosts && !optMem ipa failed_ips) = false →
      chooseM rand hosts failed_ips st = (some a, st1) →
      find_instance_and_emi_by_ip vpc_info a = .ok (ni, ne) →
      con.replace_route rt_id dcidr ni.id ne.id = some e →
      isVpcRouteSetError e = false →
      check_or_update_route con rand dcidr ci ce ipa hosts failed_ips rt_id vpc_info st
        = .error (e, { st1 with
            trace := st1.trace ++ [.replaceRoute rt_id dcidr ni.id ne.id] })) := by
  refine ⟨?_, ?_, ?_, ?_, ?_, ?_⟩
  · intro con rand dcidr ci ce ipa hosts failed_ips rt_id vpc_info st st' h
    exact (check_routes con rand dcidr ci ce ipa hosts failed_ips rt_id vpc_info st).1 st' h
  · intro con rand dcidr ci ce ipa hosts failed_ips rt_id vpc_info st e' st' h
    exact (check_routes con rand dcidr ci ce ipa hosts failed_ips rt_id vpc_info st).2 e' st' h
  · intro con rand hosts failed_ips vpc_info rt_id dcidr st st' h
    exact (add_routes con rand hosts failed_ips vpc_info rt_id dcidr st).1 st' h
  · intro con rand hosts failed_ips vpc_info rt_id dcidr st e' st' h
    exact (add_routes con rand hosts failed_ips vpc_info rt_id dcidr st).2 e' st' h
  · intro con rand dcidr ci ce ipa hosts failed_ips rt_id vpc_info st st1 a ni ne e
      hcond hch hfind hrep hvpc
    unfold check_or_update_route
    simp only [hcond, hch, hfind, hrep]
    rw [if_pos hvpc]
    rfl
  · intro con rand dcidr ci ce ipa hosts failed_ips rt_id vpc_info st st1 a ni ne e
      hcond hch hfind hrep hvpc
    unfold check_or_update_route
    simp only [hcond, hch, hfind, hrep]
    rw [hvpc]
    rfl

/-- Concrete instantiation of `c3_cache_only_after_success_amended`:
the boto-raised replace failure aborts with the replace call recorded
and the cache untouched. -/
theorem c3_cache_only_after_success_witness :
    check_or_update_route conFailReplace (fun _ => 0) "10.0.1.0/24" instC3a
        (some { id := "eni-1", private_ip_address := "10.0.0.5" }) (some "10.0.0.5")
        ["10.0.0.6"] [] "rt-1" vpcC3 { routes := [], trace := [], ctr := 0 }
      = .error (.botoStandard "EC2ResponseError",
          { routes := [],
            trace := [.replaceRoute "rt-1" "10.0.1.0/24" "i-2" "eni-2"], ctr := 1 }) :=
  c3_cache_only_after_success_amended.2.2.2.2.2 conFailReplace (fun _ => 0) "10.0.1.0/24"
    instC3a (some { id := "eni-1", private_ip_address := "10.0.0.5" }) (some "10.0.0.5")
    ["10.0.0.6"] [] "rt-1" vpcC3 { routes := [], trace := [], ctr := 0 }
    { routes := [], trace := [], ctr := 1 } "10.0.0.6" instC3b
    { id := "eni-2", private_ip_address := "10.0.0.6" } (.botoStandard "EC2ResponseError")
    (by decide) rfl rfl rfl rfl

/-! ### Claim C4 -/

def instC4 : Instance :=
  { id := "i-1", interfaces := [{ id := "eni-1", private_ip_address := "10.0.0.5" }] }

def rtC4 : RouteTable :=
  { id := "rt-1",
    routes := [{ destination_cidr_block := "10.0.8.0/24",
                 instance_id := some "i-1", interface_id := some "eni-1" },
               { destination_cidr_block := "10.0.9.0/24",
                 instance_id := some "i-1", interface_id := some "eni-1" }] }

/-- A connection whose `delete_route` raises the boto error a real EC2
call failure raises, with a snapshot of one table holding two stale
routes. -/
def conFailDelete : Con :=
  { get_all_zones := [], get_all_vpcs := [{ id := "vpc-1" }],
    get_all_subnets := fun _ => [],
    get_all_route_tables := fun _ => [rtC4],
    get_all_reservations := fun _ => [{ instances := [instC4] }],
    replace_route := fun _ _ _ _ => none,
    create_route := fun _ _ _ _ => none,
    delete_route := fun _ _ => some (.botoStandard "EC2ResponseError") }

def envC4 : Env := { connectRaw := .ok (some conFailDelete), rand := fun _ => 0 }

/-- C4 counterexample: the `delete_route` call has no per-route
handler at all.  When the first stale route's delete raises, the error
is indeed logged and swallowed — but only by the top-level cycle
handler — the cache is unchanged, and the cycle does NOT continue to
the next route: the second stale route's delete is never issued. -/
theorem c4_counterexample :
    handle_spec envC4 "us-east-1" none [("10.0.1.0/24", ["10.0.0.5"])] [] []
      = .ok { routes := [],
              trace := [.connect "us-east-1", .buildSnapshot none,
                        .deleteRoute "rt-1" "10.0.8.0/24", .logWarning],
              ctr := 0 } ∧
    ({ destination_cidr_block := "10.0.9.0/24", instance_id := some "i-1",
       interface_id := some "eni-1" } : Route) ∈ rtC4.routes :=
  ⟨rfl, by decide⟩

/-- C4 amended: a failing `delete_route` call raises out of the
reconciliation loop with the cache unmodified (the `del` on the cache
comes after the call); the remaining routes of the cycle are not
processed, and the error is logged as a warning and swallowed only at
the cycle entry point. -/
theorem c4_delete_failure_aborts_cycle_amended :
    (∀ (con : Con) (rand : Nat → Nat) (vpc_info : VpcInfo)
      (route_spec : List (String × List String)) (failed_ips : List String)
      (rt_id : String) (r : Route) (iid : String) (inst : Instance) (e : Exc) (st : St),
      r.instance_id = some iid →
      dlookup vpc_info.instance_by_id iid = some inst →
      hostsTruthy (dlookup route_spec r.destination_cidr_block) = false →
      con.delete_route rt_id r.destination_cidr_block = some e →
      processRoute con rand vpc_info route_spec failed_ips rt_id r st
        = .error (e, { st with
            trace := st.trace ++ [.deleteRoute rt_id r.destination_cidr_block] })) ∧
    (∀ (env : Env) (region : String) (vpc_id : Option String)
      (route_spec : List (String × List String)) (failed_ips : List String)
      (cache : Cache) (con : Con) (vpc_info : VpcInfo) (e : Exc) (st' : St),
      route_spec ≠ [] →
      env.connectRaw = .ok (some con) →
      get_vpc_overview con vpc_id region = .ok vpc_info →
      process_route_spec_config con env.rand vpc_info route_spec failed_ips
          { routes := cache, trace := [.connect region, .buildSnapshot vpc_id], ctr := 0 }
        = .error (e, st') →
      caughtByStandardError e = true →
      handle_spec env region vpc_id route_spec failed_ips cache
        = .ok { st' with trace := st'.trace ++ [.logWarning] }) := by
  constructor
  · intro con rand vpc_info route_spec failed_ips rt_id r iid inst e st
      hiid hlook hfalsy hdel
    unfold processRoute
    simp only [hiid, hlook, hfalsy, hdel]
    rfl
  · intro env region vpc_id route_spec failed_ips cache con vpc_info e st'
      hne hconnect hoverview hprocess hcaught
    unfold handle_spec
    rw [if_neg hne]
    unfold connect_to_region
    simp only [hconnect, hoverview, hprocess]
    rw [if_pos hcaught]

/-- Concrete instantiation of
`c4_delete_failure_aborts_cycle_amended`: the first stale route's
failed delete aborts processing with the delete call recorded and the
cache untouched. -/
theorem c4_delete_failure_witness :
    processRoute conFailDelete (fun _ => 0)
        { zones := [], vpc := { id := "vpc-1" }, subnets := [], route_tables := [rtC4],
          instances := [instC4], instance_by_id := [("i-1", instC4)] }
        [("10.0.1.0/24", ["10.0.0.5"])] [] "rt-1"
        { destination_cidr_block := "10.0.8.0/24", instance_id := some "i-1",
          interface_id := some "eni-1" }
        { routes := [], trace := [], ctr := 0 }
      = .error (.botoStandard "EC2ResponseError",
          { routes := [], trace := [.deleteRoute "rt-1" "10.0.8.0/24"], ctr := 0 }) :=
  c4_delete_failure_aborts_cycle_amended.1 conFailDelete (fun _ => 0)
    { zones := [], vpc := { id := "vpc-1" }, subnets := [], route_tables := [rtC4],
      instances := [instC4], instance_by_id := [("i-1", instC4)] }
    [("10.0.1.0/24", ["10.0.0.5"])] [] "rt-1"
    { destination_cidr_block := "10.0.8.0/24", instance_id := some "i-1",
      interface_id := some "eni-1" }
    "i-1" instC4 (.botoStandard "EC2ResponseError") { routes := [], trace := [], ctr := 0 }
    rfl rfl rfl rfl

/-! ### Claim C7 -/

/-- C7: no exception kind lets control escape `handle_spec` — every
cycle returns normally to the caller; and a lookup failure during
snapshot construction (no VPCs, or an explicit VPC id matching none)
ends the cycle with a logged warning, no mutation call issued and the
cache unchanged. -/
theorem c7_snapshot_failure_ends_cycle :
    (∀ (env : Env) (region : String) (vpc_id : Option String)
      (route_spec : List (String × List String)) (failed_ips : List String)
      (cache : Cache),
      ∃ st, handle_spec env region vpc_id route_spec failed_ips cache = .ok st) ∧
    (∀ (env : Env) (region : String) (vpc_id : Option String)
      (route_spec : List (String × List String)) (failed_ips : List String)
      (cache : Cache) (con : Con) (e : Exc),
      route_spec ≠ [] →
      env.connectRaw = .ok (some con) →
      get_vpc_overview con vpc_id region = .error e →
      handle_spec env region vpc_id route_spec failed_ips cache
        = .ok { routes := cache,
                trace := [.connect region, .buildSnapshot vpc_id, .logWarning],
                ctr := 0 }) := by
  constructor
  · intro env region vpc_id route_spec failed_ips cache
    unfold handle_spec
    split
    · exact ⟨_, rfl⟩
    · split
      · exact ⟨_, rfl⟩
      · rename_i e st heq
        rcases caught_or_noAuth e with hc | hn
        · rw [if_pos hc]
          exact ⟨_, rfl⟩
        · subst hn
          exact ⟨_, rfl⟩
  · intro env region vpc_id route_spec failed_ips cache con e hne hconnect hoverview
    unfold handle_spec
    rw [if_neg hne]
    unfold connect_to_region
    simp only [hconnect, hoverview]
    rw [if_pos (vpc_caught (overview_err_kind hoverview))]
    rfl

/-- An environment whose provider reports no VPCs at all. -/
def envC7 : Env :=
  { connectRaw := .ok (some conAllOk), rand := fun _ => 0 }

/-- Concrete instantiation of `c7_snapshot_failure_ends_cycle`: with no
VPCs, the cycle ends in a logged warning, an untouched cache and no
mutation call. -/
theorem c7_snapshot_failure_witness :
    handle_spec envC7 "us-east-1" none [("10.0.1.0/24", ["10.0.0.5"])] []
        [("10.0.9.0/24", ("10.0.0.9", "i-9", "eni-9"))]
      = .ok { routes := [("10.0.9.0/24", ("10.0.0.9", "i-9", "eni-9"))],
              trace := [.connect "us-east-1", .buildSnapshot none, .logWarning],
              ctr := 0 } :=
  c7_snapshot_failure_ends_cycle.2 envC7 "us-east-1" none
    [("10.0.1.0/24", ["10.0.0.5"])] [] [("10.0.9.0/24", ("10.0.0.9", "i-9", "eni-9"))]
    conAllOk (.vpcRouteSet "Cannot find any VPCs.") (by decide) rfl rfl

/-! ### Claim C9 -/

/-- C9: with an empty route spec, `handle_spec` returns immediately:
no session is opened, no snapshot is built, no mutation call is
issued, and the cache is returned unchanged — the trace is empty. -/
theorem c9_empty_spec_noop :
    ∀ (env : Env) (region : String) (vpc_id : Option String)
      (failed_ips : List String) (cache : Cache),
      handle_spec env region vpc_id [] failed_ips cache
        = .ok { routes := cache, trace := [], ctr := 0 } := by
  intro env region vpc_id failed_ips cache
  rfl

/-! ### Claim C10 -/

/-- A provider on which the vpc-id filter built from the absent
identifier returns a subnet of a different VPC. -/
def conC10 : Con :=
  { conAllOk with
    get_all_vpcs := [{ id := "vpc-1" }],
    get_all_subnets := fun _ => [{ id := "subnet-9", vpc_id := "vpc-other" }] }

/-- C10: when no VPC identifier is supplied, `get_vpc_overview` picks
the first VPC the provider returns, yet passes the ORIGINAL (absent)
identifier as the vpc-id filter to the subnet, route-table and
reservation describe calls; consequently the snapshot is not
restricted to the selected VPC — a provider behaviour exists in which
it contains a subnet of another VPC. -/
theorem c10_filter_uses_original_vpc_id :
    (∀ (con : Con) (region : String) (v : Vpc) (rest : List Vpc),
      con.get_all_vpcs = v :: rest →
      get_vpc_overview con none region
        = .ok { zones := con.get_all_zones, vpc := v,
                subnets := con.get_all_subnets none,
                route_tables := con.get_all_route_tables none,
                instances :=
                  ((con.get_all_reservations none).map Reservation.instances).flatten,
                instance_by_id := buildInstanceIndex
                  (((con.get_all_reservations none).map Reservation.instances).flatten) }) ∧
    (∃ (con : Con) (region : String) (d : VpcInfo) (sn : Subnet),
      get_vpc_overview con none region = .ok d ∧
      sn ∈ d.subnets ∧ sn.vpc_id ≠ d.vpc.id) := by
  constructor
  · intro con region v rest hv
    unfold get_vpc_overview
    rw [hv]
    rfl
  · refine ⟨conC10, "us-east-1",
      { zones := [], vpc := { id := "vpc-1" },
        subnets := [{ id := "subnet-9", vpc_id := "vpc-other" }],
        route_tables := [], instances := [], instance_by_id := [] },
      { id := "subnet-9", vpc_id := "vpc-other" }, rfl, by decide, by decide⟩

/-- Concrete instantiation of `c10_filter_uses_original_vpc_id`: the
filter argument stays `none` although "vpc-1" was selected, and the
returned subnet belongs to another VPC. -/
theorem c10_filter_witness :
    get_vpc_overview conC10 none "us-east-1"
      = .ok { zones := [], vpc := { id := "vpc-1" },
              subnets := [{ id := "subnet-9", vpc_id := "vpc-other" }],
              route_tables := [], instances := [], instance_by_id := [] } :=
  c10_filter_uses_original_vpc_id.1 conC10 "us-east-1" { id := "vpc-1" } [] rfl

/-! ### Claim C8 -/

def instC8 : Instance :=
  { id := "i-5", interfaces := [{ id := "eni-5", private_ip_address := "10.0.0.5" }] }

/-- A snapshot whose only route is foreign and carries a spec prefix. -/
def vpcC8a : VpcInfo :=
  { zones := [], vpc := { id := "vpc-1" }, subnets := [],
    route_tables := [{ id := "rt-1",
                       routes := [{ destination_cidr_block := "10.0.1.0/24",
                                    instance_id := none, interface_id := none }] }],
    instances := [instC8], instance_by_id := [("i-5", instC8)] }

/-- The same snapshot except for the foreign route's prefix. -/
def vpcC8b : VpcInfo :=
  { zones := [], vpc := { id := "vpc-1" }, subnets := [],
    route_tables := [{ id := "rt-1",
                       routes := [{ destination_cidr_block := "192.168.0.0/16",
                                    instance_id := none, interface_id := none }] }],
    instances := [instC8], instance_by_id := [("i-5", instC8)] }

/-- C8 counterexample: two snapshots that differ only in the prefix of
a foreign route produce different reconciliations — when the foreign
route carries the spec prefix, its prefix is recorded as seen in pass
1 and the pass-2 create for that (prefix, table) pair is suppressed.
The foreign route's content is therefore read beyond detecting that it
is foreign, and it influences diffing. -/
theorem c8_counterexample :
    process_route_spec_config conAllOk (fun _ => 0) vpcC8a
        [("10.0.1.0/24", ["10.0.0.5"])] [] { routes := [], trace := [], ctr := 0 }
      = .ok { routes := [], trace := [], ctr := 0 } ∧
    process_route_spec_config conAllOk (fun _ => 0) vpcC8b
        [("10.0.1.0/24", ["10.0.0.5"])] [] { routes := [], trace := [], ctr := 0 }
      = .ok { routes := [("10.0.1.0/24", ("10.0.0.5", "i-5", "eni-5"))],
              trace := [.createRoute "rt-1" "10.0.1.0/24" "i-5" "eni-5"], ctr := 1 } :=
  ⟨rfl, rfl⟩

/-- C8 amended: reconciliation never issues a create, replace or
delete call addressing a foreign route's (table, prefix) pair — on any
outcome of the cycle — although the foreign route's prefix IS read and
recorded as seen, which can suppress pass-2 creates for that pair. -/
theorem c8_foreign_never_mutated_amended :
    ∀ (con : Con) (rand : Nat → Nat) (vpc_info : VpcInfo)
      (route_spec : List (String × List String)) (failed_ips : List String)
      (st : St) (rt : RouteTable) (r : Route),
      rt ∈ vpc_info.route_tables → r ∈ rt.routes → r.instance_id = none →
      (vpc_info.route_tables.map RouteTable.id).Nodup →
      (rt.routes.map Route.destination_cidr_block).Nodup →
      ∃ l, (resSt (process_route_spec_config con rand vpc_info route_spec failed_ips
          st)).trace = st.trace ++ l ∧
        ∀ ev ∈ l, evKey ev ≠ some (rt.id, r.destination_cidr_block) := by
  intro con rand vpc_info route_spec failed_ips st rt r hrt hr hforeign hnodupT hnodupR
  have hpass1Part : ∀ (l1 : List Event),
      (∀ ev ∈ l1, ∃ rt', rt' ∈ vpc_info.route_tables ∧ ∃ r', r' ∈ rt'.routes ∧
        r'.instance_id ≠ none ∧
        ((∃ i e, ev = Event.replaceRoute rt'.id r'.destination_cidr_block i e) ∨
          ev = Event.deleteRoute rt'.id r'.destination_cidr_block)) →
      ∀ ev ∈ l1, evKey ev ≠ some (rt.id, r.destination_cidr_block) := by
    intro l1 hsh ev hev hkey
    obtain ⟨rt', hrt', r', hr', hatt, hsh'⟩ := hsh ev hev
    have hkey' : evKey ev = some (rt'.id, r'.destination_cidr_block) := by
      rcases hsh' with ⟨i, e, he⟩ | he <;> rw [he] <;> rfl
    rw [hkey'] at hkey
    injection hkey with hkey
    rw [Prod.mk.injEq] at hkey
    have hrteq : rt' = rt :=
      List.inj_on_of_nodup_map hnodupT hrt' hrt hkey.1
    subst hrteq
    have hreq : r' = r :=
      List.inj_on_of_nodup_map hnodupR hr' hr hkey.2
    subst hreq
    exact hatt hforeign
  unfold process_route_spec_config
  obtain ⟨l1, hl1, hsh1⟩ :=
    pass1_trace con rand vpc_info route_spec failed_ips vpc_info.route_tables [] st
  cases hp1 : pass1 con rand vpc_info route_spec failed_ips vpc_info.route_tables [] st with
  | error es =>
    obtain ⟨e0, st0⟩ := es
    rw [hp1] at hl1
    exact ⟨l1, hl1, hpass1Part l1 hsh1⟩
  | ok p =>
    obtain ⟨acc, st1⟩ := p
    rw [hp1] at hl1
    simp only [resStAcc] at hl1
    have hacc := pass1_acc_of_ok con rand vpc_info route_spec failed_ips
      vpc_info.route_tables [] st acc st1 hp1
    have haccmap : acc = vpc_info.route_tables.map
        (fun t => (t.id, t.routes.map Route.destination_cidr_block)) := by
      rw [hacc, foldl_dinsert_fresh _ _ _ (by simp) hnodupT]
      simp
    obtain ⟨l2, hl2, hsh2⟩ := pass2_trace con rand vpc_info failed_ips route_spec acc st1
    refine ⟨l1 ++ l2, ?_, ?_⟩
    · rw [hl2, hl1, List.append_assoc]
    · intro ev hev
      rcases List.mem_append.mp hev with h1 | h2
      · exact hpass1Part l1 hsh1 ev h1
      · intro hkey
        obtain ⟨p', hosts', hps', rid, L, hmacc, hnL, i, e, he⟩ := hsh2 ev h2
        rw [he] at hkey
        injection hkey with hkey
        rw [Prod.mk.injEq] at hkey
        rw [haccmap] at hmacc
        obtain ⟨t, hmt, hteq⟩ := List.mem_map.mp hmacc
        rw [Prod.mk.injEq] at hteq
        have hteq1 : t.id = rt.id := hteq.1.trans hkey.1
        have htrt : t = rt := List.inj_on_of_nodup_map hnodupT hmt hrt hteq1
        apply hnL
        rw [← hteq.2, htrt, hkey.2]
        exact List.mem_map_of_mem Route.destination_cidr_block hr

/-- Concrete instantiation of `c8_foreign_never_mutated_amended`: the
cycle over a snapshot with one foreign route issues no call for that
route's pair. -/
theorem c8_foreign_never_mutated_witness :
    ∃ l, (resSt (process_route_spec_config conAllOk (fun _ => 0) vpcC8a
        [("10.0.1.0/24", ["10.0.0.5"])] [] { routes := [], trace := [], ctr := 0 })).trace
      = ({ routes := [], trace := [], ctr := 0 } : St).trace ++ l ∧
      ∀ ev ∈ l, evKey ev ≠ some ("rt-1", "10.0.1.0/24") :=
  c8_foreign_never_mutated_amended conAllOk (fun _ => 0) vpcC8a
    [("10.0.1.0/24", ["10.0.0.5"])] [] { routes := [], trace := [], ctr := 0 }
    { id := "rt-1", routes := [{ destination_cidr_block := "10.0.1.0/24",
                                 instance_id := none, interface_id := none }] }
    { destination_cidr_block := "10.0.1.0/24", instance_id := none, interface_id := none }
    (by decide) (by decide) rfl (by decide) (by decide)

/-! ### Claim C5 -/

def rtC5 : RouteTable :=
  { id := "rt-1", routes := [{ destination_cidr_block := "10.0.1.0/24",
                               instance_id := none, interface_id := none }] }

def instC5 : Instance :=
  { id := "i-5", interfaces := [{ id := "eni-5", private_ip_address := "10.0.0.5" }] }

def vpcC5 : VpcInfo :=
  { zones := [], vpc := { id := "vpc-1" }, subnets := [], route_tables := [rtC5],
    instances := [instC5], instance_by_id := [("i-5", instC5)] }

/-- C5 counterexample: the spec prefix has a healthy candidate, yet
after the cycle the table does NOT hold exactly one instance-attached
route for it: the only route for the prefix is a foreign one, which
recorded the prefix as seen in pass 1 and suppressed the pass-2
create, so the cycle issues no call at all and the table ends with
zero instance-attached routes for the spec prefix. -/
theorem c5_counterexample :
    (∃ a ∈ ["10.0.0.5"], a ∉ ([] : List String)) ∧
    process_route_spec_config conAllOk (fun _ => 0) vpcC5
        [("10.0.1.0/24", ["10.0.0.5"])] [] { routes := [], trace := [], ctr := 0 }
      = .ok { routes := [], trace := [], ctr := 0 } ∧
    countInstanceAttached (applyTrace rtC5
        (resSt (process_route_spec_config conAllOk (fun _ => 0) vpcC5
          [("10.0.1.0/24", ["10.0.0.5"])] []
          { routes := [], trace := [], ctr := 0 })).trace)
        "10.0.1.0/24" = 0 :=
  ⟨by decide, rfl, rfl⟩

def instC5A : Instance :=
  { id := "i-5", interfaces := [{ id := "eni-5", private_ip_address := "10.0.0.5" }] }

def instC5B : Instance :=
  { id := "i-6", interfaces := [{ id := "eni-6", private_ip_address := "10.0.0.6" }] }

/-- Two route tables, both missing the spec prefix. -/
def vpcC5b : VpcInfo :=
  { zones := [], vpc := { id := "vpc-1" }, subnets := [],
    route_tables := [{ id := "rt-1", routes := [] }, { id := "rt-2", routes := [] }],
    instances := [instC5A, instC5B],
    instance_by_id := [("i-5", instC5A), ("i-6", instC5B)] }

/-- C5 amended: with at least one non-failed candidate per spec prefix
(and resolvable candidates, a complete instance index and succeeding
mutation calls), one cycle issues exactly one create call for every
(prefix, table) pair whose prefix was not recorded as seen in pass 1 —
foreign routes also record "seen", so a table whose only route for a
spec prefix is foreign receives no create — and zero creates for seen
pairs; and the selector is invoked independently per table: the second
conjunct exhibits one cycle in which two tables missing the same
prefix receive creates targeting different instances. -/
theorem c5_missing_prefix_create_amended :
    (∀ (con : Con) (rand : Nat → Nat) (vpc_info : VpcInfo)
      (route_spec : List (String × List String)) (failed_ips : List String) (st : St),
      (∀ a b c d, con.replace_route a b c d = none) →
      (∀ a b c d, con.create_route a b c d = none) →
      (∀ a b, con.delete_route a b = none) →
      (∀ p hosts, (p, hosts) ∈ route_spec → ∃ a ∈ hosts, a ∉ failed_ips) →
      (∀ p hosts, (p, hosts) ∈ route_spec → ∀ a ∈ hosts,
        isOkE (find_instance_and_emi_by_ip vpc_info a) = true) →
      (∀ rt ∈ vpc_info.route_tables, ∀ r ∈ rt.routes, ∀ iid,
        r.instance_id = some iid → (dlookup vpc_info.instance_by_id iid).isSome = true) →
      (vpc_info.route_tables.map RouteTable.id).Nodup →
      (route_spec.map Prod.fst).Nodup →
      ∃ st' l, process_route_spec_config con rand vpc_info route_spec failed_ips st
          = .ok st' ∧
        st'.trace = st.trace ++ l ∧
        ∀ rt ∈ vpc_info.route_tables, ∀ p hosts, (p, hosts) ∈ route_spec →
          (l.filter (isCreateFor rt.id p)).length =
            (if p ∈ rt.routes.map Route.destination_cidr_block then 0 else 1)) ∧
    (process_route_spec_config conAllOk (fun k => k) vpcC5b
        [("10.0.1.0/24", ["10.0.0.5", "10.0.0.6"])] []
        { routes := [], trace := [], ctr := 0 }
      = .ok { routes := [("10.0.1.0/24", ("10.0.0.6", "i-6", "eni-6"))],
              trace := [.createRoute "rt-1" "10.0.1.0/24" "i-5" "eni-5",
                        .createRoute "rt-2" "10.0.1.0/24" "i-6" "eni-6"],
              ctr := 2 }) := by
  constructor
  · intro con rand vpc_info route_spec failed_ips st
      hrepl hcre hdel hhealthy hres hiid hnodupT hnodupS
    obtain ⟨st1, hp1⟩ := pass1_ok con rand vpc_info route_spec failed_ips hdel hrepl
      vpc_info.route_tables [] st hiid
    obtain ⟨l1, hl1, hsh1⟩ :=
      pass1_trace con rand vpc_info route_spec failed_ips vpc_info.route_tables [] st
    rw [hp1] at hl1
    simp only [resStAcc] at hl1
    have haccmap := foldl_dinsert_fresh
      (fun t => t.routes.map Route.destination_cidr_block)
      vpc_info.route_tables [] (by simp) hnodupT
    rw [List.nil_append] at haccmap
    have haccnodup : ((vpc_info.route_tables.map
        (fun t => (t.id, t.routes.map Route.destination_cidr_block))).map Prod.fst).Nodup := by
      simpa [List.map_map, Function.comp_def] using hnodupT
    obtain ⟨st', l2, hok2, htr2, hsh2, hcount2⟩ :=
      pass2_count con rand vpc_info failed_ips hcre route_spec
        (vpc_info.route_tables.map
          (fun t => (t.id, t.routes.map Route.destination_cidr_block))) st1
        hnodupS haccnodup hhealthy hres
    refine ⟨st', l1 ++ l2, ?_, ?_, ?_⟩
    · unfold process_route_spec_config
      rw [hp1]
      show pass2 con rand vpc_info failed_ips route_spec
        (vpc_info.route_tables.foldl (fun a t =>
          dinsert a t.id (t.routes.map Route.destination_cidr_block)) []) st1 = _
      rw [haccmap]
      exact hok2
    · rw [htr2, hl1, List.append_assoc]
    · intro rt hrtmem p hosts hspec
      rw [List.filter_append, List.length_append]
      have hl1zero : (l1.filter (isCreateFor rt.id p)).length = 0 := by
        refine length_filter_eq_zero_of ?_
        intro ev hev
        obtain ⟨rt', hrt', r', hr', hatt, hsh⟩ := hsh1 ev hev
        rcases hsh with ⟨i, e, he⟩ | he <;> rw [he] <;> rfl
      rw [hl1zero, Nat.zero_add]
      exact hcount2 p hosts rt.id (rt.routes.map Route.destination_cidr_block) hspec
        (List.mem_map_of_mem _ hrtmem)
  · rfl

/-- Concrete instantiation of `c5_missing_prefix_create_amended`: a
cycle over two empty tables and a one-prefix spec issues exactly one
create per table. -/
theorem c5_missing_prefix_create_witness :
    (∀ p hosts, (p, hosts) ∈ [("10.0.1.0/24", ["10.0.0.5", "10.0.0.6"])] →
      ∃ a ∈ hosts, a ∉ ([] : List String)) ∧
    (∃ st' l, process_route_spec_config conAllOk (fun k => k) vpcC5b
        [("10.0.1.0/24", ["10.0.0.5", "10.0.0.6"])] []
        { routes := [], trace := [], ctr := 0 } = .ok st' ∧
      st'.trace = ({ routes := [], trace := [], ctr := 0 } : St).trace ++ l ∧
      ∀ rt ∈ vpcC5b.route_tables,
        ∀ p hosts, (p, hosts) ∈ [("10.0.1.0/24", ["10.0.0.5", "10.0.0.6"])] →
          (l.filter (isCreateFor rt.id p)).length =
            (if p ∈ rt.routes.map Route.destination_cidr_block then 0 else 1)) :=
  ⟨by
    intro p hosts hm
    rw [List.mem_singleton, Prod.mk.injEq] at hm
    rw [hm.2]
    exact ⟨"10.0.0.5", by decide, by decide⟩,
   c5_missing_prefix_create_amended.1 conAllOk (fun k => k) vpcC5b
     [("10.0.1.0/24", ["10.0.0.5", "10.0.0.6"])] []
     { routes := [], trace := [], ctr := 0 }
     (fun _ _ _ _ => rfl) (fun _ _ _ _ => rfl) (fun _ _ => rfl)
     (by
       intro p hosts hm
       rw [List.mem_singleton, Prod.mk.injEq] at hm
       rw [hm.2]
       exact ⟨"10.0.0.5", by decide, by decide⟩)
     (by
       intro p hosts hm
       rw [List.mem_singleton, Prod.mk.injEq] at hm
       rw [hm.2]
       intro a ha
       rcases (by simpa using ha : a = "10.0.0.5" ∨ a = "10.0.0.6") with h | h <;>
         rw [h] <;> rfl)
     (by
       intro rt hrt r hr iid hr2
       exfalso
       simp only [vpcC5b, List.mem_cons, List.mem_singleton] at hrt
       rcases hrt with h | h | h
       · rw [h] at hr
         simp at hr
       · rw [h] at hr
         simp at hr
       · simp at h)
     (by decide) (by decide)⟩

end VpcRouter
